import Mathlib

/-!
# Verification of the spatial-ui-lab gesture core

Shallow embedding of `packages/gesture-core/src/GestureEngine.ts` and
`packages/control-core/src/OrbitViewportController.ts`.

JavaScript numbers are modelled as real numbers (`Math.hypot`, `Math.log`,
`Math.exp` and `Math.pow` force an ambient field closed under square roots
and exponentials).  JavaScript `undefined`-able values are modelled with
`Option`; a thrown `TypeError` (member access on `undefined`) is modelled by
an `Option.none` result of the whole call, which is faithful because the
engine mutates no state before the throwing access can happen.
-/

open scoped Classical

noncomputable section

/-- A 2-D landmark in normalized image space (`types.ts`, `Landmark`). -/
structure Landmark where
  x : ℝ
  y : ℝ

/-- A 2-D point (the `{ x, y }` object literals of `GestureEngine.ts`). -/
structure Point where
  x : ℝ
  y : ℝ

/-- Left/Right hand label (`types.ts`, `Handedness`). -/
inductive Handedness where
  | Left
  | Right
deriving DecidableEq

/-- `types.ts`: `TrackedHand = { handedness, landmarks }`. -/
structure TrackedHand where
  handedness : Handedness
  landmarks : List Landmark

/-- `types.ts`: `HandFrame = { hands, timestamp }`. -/
structure HandFrame where
  hands : List TrackedHand
  timestamp : ℝ

/-- `control-core/src/types.ts`: `ViewportCommand`. -/
inductive ViewportCommand where
  | PAN (dx dy : ℝ)
  | ROTATE (dx dy : ℝ)
  | ZOOM (delta : ℝ)
  | POINTER_CLICK (xNorm yNorm : ℝ)

/-- `Required<GestureEngineOptions>` (all fields present after the
constructor merges user options over `DEFAULTS`). -/
structure GestureEngineOptions where
  tapMaxDurationMs : ℝ
  pinchIndexThreshold : ℝ
  pinchMiddleThreshold : ℝ
  rotationSensitivity : ℝ
  panSensitivity : ℝ
  zoomSensitivity : ℝ
  moveDeadzone : ℝ
  zoomDeadzone : ℝ

/-- The `DEFAULTS` constant of `GestureEngine.ts`. -/
def DEFAULTS : GestureEngineOptions where
  tapMaxDurationMs := 220
  pinchIndexThreshold := 6 / 100
  pinchMiddleThreshold := 7 / 100
  rotationSensitivity := 200
  panSensitivity := 100
  zoomSensitivity := 5
  moveDeadzone := 15 / 10000
  zoomDeadzone := 1 / 1000

/-- `HandRuntimeState` of `GestureEngine.ts`. -/
structure HandRuntimeState where
  pinchIndexActive : Bool
  pinchMiddleActive : Bool
  pinchStartTime : Option ℝ
  lastCenter : Option Point

/-- The entry `ensureHandState` inserts for a fresh handedness key. -/
def freshHandState : HandRuntimeState where
  pinchIndexActive := false
  pinchMiddleActive := false
  pinchStartTime := none
  lastCenter := none

/-- `ProcessedHand` of `GestureEngine.ts`. -/
structure ProcessedHand where
  handedness : Handedness
  center : Point
  indexTip : Point
  pinchIndex : Bool
  pinchMiddle : Bool

/-- `GestureMode` of `gesture-core/src/types.ts`. -/
inductive GestureMode where
  | IDLE
  | ROTATE
  | PAN
  | ZOOM
  | CURSOR

/-- The mutable fields of a `GestureEngine` instance.  The `Map<Handedness,
HandRuntimeState>` together with `ensureHandState` behaves exactly like a
total function defaulting to `freshHandState`, which is how we model it. -/
structure EngineState where
  options : GestureEngineOptions
  cursor : Point
  mode : GestureMode
  primaryHand : Option Handedness
  handStates : Handedness → HandRuntimeState
  lastZoomDistance : Option ℝ

/-- `new GestureEngine(opts)` (with `opts` already merged over `DEFAULTS`). -/
def initialEngine (opts : GestureEngineOptions) : EngineState where
  options := opts
  cursor := ⟨1 / 2, 1 / 2⟩
  mode := GestureMode.IDLE
  primaryHand := none
  handStates := fun _ => freshHandState
  lastZoomDistance := none

/-- `distance2D` of `GestureEngine.ts`: `(a?.x ?? 0) - (b?.x ?? 0)` etc.,
then `Math.hypot`. A missing landmark contributes coordinate `0`. -/
def distance2D (a b : Option Landmark) : ℝ :=
  let dx := (a.map Landmark.x).getD 0 - (b.map Landmark.x).getD 0
  let dy := (a.map Landmark.y).getD 0 - (b.map Landmark.y).getD 0
  Real.sqrt (dx ^ 2 + dy ^ 2)

/-- `averageLandmarks` of `GestureEngine.ts`: `(0.5, 0.5)` for an empty
list, otherwise the componentwise mean of all landmarks. -/
def averageLandmarks (landmarks : List Landmark) : Point :=
  match landmarks with
  | [] => ⟨1 / 2, 1 / 2⟩
  | _ =>
    let sum := landmarks.foldl (fun acc l => Point.mk (acc.x + l.x) (acc.y + l.y)) ⟨0, 0⟩
    ⟨sum.x / landmarks.length, sum.y / landmarks.length⟩

/-- `clamp01` of `GestureEngine.ts`: `Math.min(1, Math.max(0, value))`.
(The source also maps the float `NaN` to `0.5`, a value that has no
counterpart in `ℝ`; every branch lands in `[0,1]` either way.) -/
def clamp01 (value : ℝ) : ℝ :=
  min 1 (max 0 value)

/-- `GestureEngine.processHand`.  In the source, `hand.landmarks[4/8/12]`
may be `undefined`; `distance2D` guards those accesses with `?? 0`, but
`clamp01(indexTip.x)` does not, so a hand whose landmark 8 is absent makes
the engine throw — modelled by `none`. -/
def processHand (opts : GestureEngineOptions) (hand : TrackedHand) : Option ProcessedHand :=
  match hand.landmarks[8]? with
  | none => none
  | some it =>
    some
      { handedness := hand.handedness
        center := averageLandmarks hand.landmarks
        indexTip := ⟨clamp01 it.x, clamp01 it.y⟩
        pinchIndex :=
          decide (distance2D (hand.landmarks[4]?) (hand.landmarks[8]?) <
            opts.pinchIndexThreshold)
        pinchMiddle :=
          decide (distance2D (hand.landmarks[4]?) (hand.landmarks[12]?) <
            opts.pinchMiddleThreshold) }

/-- `frame.hands.map((hand) => this.processHand(hand))`, propagating the
exception of the first hand that throws (no state was mutated yet). -/
def processAll (opts : GestureEngineOptions) : List TrackedHand → Option (List ProcessedHand)
  | [] => some []
  | hand :: rest =>
    match processHand opts hand, processAll opts rest with
    | some ph, some pt => some (ph :: pt)
    | _, _ => none

/-- `handDistance` of `GestureEngine.ts`. -/
def handDistance (a b : ProcessedHand) : ℝ :=
  Real.sqrt ((a.center.x - b.center.x) ^ 2 + (a.center.y - b.center.y) ^ 2)

/-- `deltaFromLast` of `GestureEngine.ts`. -/
def deltaFromLast (current : Point) (last : Option Point) : ℝ × ℝ :=
  match last with
  | none => (0, 0)
  | some l => (current.x - l.x, current.y - l.y)

/-- `scaleAndDeadzone` of `GestureEngine.ts`. -/
def scaleAndDeadzone (delta : ℝ × ℝ) (sensitivity deadzone : ℝ) : Option (ℝ × ℝ) :=
  let sdx := delta.1 * sensitivity
  let sdy := delta.2 * sensitivity
  if |sdx| + |sdy| < deadzone then none else some (sdx, sdy)

/-- One iteration of the tap-detection loop (`GestureEngine.update`, the
`for (const hand of processed)` body), acting on the state stored for
`hand.handedness` and returning the commands it pushes. -/
def tapHand (opts : GestureEngineOptions) (timestamp : ℝ) (cursor : Point)
    (st : HandRuntimeState) (hand : ProcessedHand) :
    HandRuntimeState × List ViewportCommand :=
  -- rising edge: record pinchStartTime
  let st1 :=
    if hand.pinchIndex && !st.pinchIndexActive then
      { st with pinchStartTime := some timestamp }
    else st
  -- falling edge: maybe emit POINTER_CLICK, clear pinchStartTime
  let step2 : List ViewportCommand × HandRuntimeState :=
    if !hand.pinchIndex && st.pinchIndexActive then
      match st1.pinchStartTime with
      | some t0 =>
        (if decide (timestamp - t0 ≤ opts.tapMaxDurationMs) && !hand.pinchMiddle then
          [ViewportCommand.POINTER_CLICK cursor.x cursor.y]
        else [], { st1 with pinchStartTime := none })
      | none => ([], st1)
    else ([], st1)
  ({ step2.2 with
      pinchIndexActive := hand.pinchIndex
      pinchMiddleActive := hand.pinchMiddle
      lastCenter := some hand.center }, step2.1)

/-- The whole tap-detection loop over the processed hands, threading the
per-handedness state map and accumulating pushed commands. -/
def tapLoop (opts : GestureEngineOptions) (timestamp : ℝ) (cursor : Point)
    (acc : (Handedness → HandRuntimeState) × List ViewportCommand) :
    List ProcessedHand → (Handedness → HandRuntimeState) × List ViewportCommand
  | [] => acc
  | hand :: rest =>
    let r := tapHand opts timestamp cursor (acc.1 hand.handedness) hand
    tapLoop opts timestamp cursor
      (Function.update acc.1 hand.handedness r.1, acc.2 ++ r.2) rest

/-- The single-primary-hand part of `GestureEngine.update` (lines 74–102 of
the source: the `else` branch of the two-hand-zoom test). -/
def primaryPhase (s : EngineState) (a : ProcessedHand) :
    EngineState × List ViewportCommand :=
  let st := s.handStates a.handedness
  if a.pinchIndex && a.pinchMiddle then
    let delta := deltaFromLast a.center st.lastCenter
    let cmds :=
      match scaleAndDeadzone delta s.options.panSensitivity s.options.moveDeadzone with
      | some sc => [ViewportCommand.PAN sc.1 sc.2]
      | none => []
    ({ s with
        mode := GestureMode.PAN
        primaryHand := some a.handedness
        lastZoomDistance := none
        handStates := Function.update s.handStates a.handedness
          { st with lastCenter := some a.center }
        cursor := a.indexTip }, cmds)
  else if a.pinchIndex then
    let delta := deltaFromLast a.center st.lastCenter
    let cmds :=
      match scaleAndDeadzone delta s.options.rotationSensitivity s.options.moveDeadzone with
      | some sc => [ViewportCommand.ROTATE sc.1 sc.2]
      | none => []
    ({ s with
        mode := GestureMode.ROTATE
        primaryHand := some a.handedness
        lastZoomDistance := none
        handStates := Function.update s.handStates a.handedness
          { st with lastCenter := some a.center }
        cursor := a.indexTip }, cmds)
  else
    ({ s with
        mode := GestureMode.CURSOR
        primaryHand := some a.handedness
        lastZoomDistance := none
        handStates := Function.update s.handStates a.handedness
          { st with lastCenter := none }
        cursor := a.indexTip }, [])

/-- Mode determination and camera-motion emission (`GestureEngine.update`,
lines 53–102): the empty-frame early return, the two-hand-zoom branch, or
the primary-hand branch. -/
def modePhase (s : EngineState) : List ProcessedHand → EngineState × List ViewportCommand
  | [] =>
    ({ s with
        mode := GestureMode.IDLE
        primaryHand := none
        lastZoomDistance := none }, [])
  | [a] => primaryPhase s a
  | a :: b :: rest =>
    if (a :: b :: rest).all (fun h => h.pinchIndex) then
      let distance := handDistance a b
      let cmds :=
        match s.lastZoomDistance with
        | some prev =>
          let scaled := (prev - distance) * s.options.zoomSensitivity
          if |scaled| > s.options.zoomDeadzone then [ViewportCommand.ZOOM scaled] else []
        | none => []
      ({ s with
          mode := GestureMode.ZOOM
          primaryHand := none
          lastZoomDistance := some distance }, cmds)
    else primaryPhase s a

/-- `GestureEngine.update`.  Returns `none` when the source would throw
(some hand misses landmark 8); otherwise the new engine state and the
emitted command list.  On an empty frame the source returns before the tap
loop, which the model reproduces since the loop over `[]` is a no-op. -/
def update (s : EngineState) (f : HandFrame) :
    Option (EngineState × List ViewportCommand) :=
  match processAll s.options f.hands with
  | none => none
  | some processed =>
    match processed with
    | [] =>
      some ({ s with
          mode := GestureMode.IDLE
          primaryHand := none
          lastZoomDistance := none }, [])
    | _ =>
      let r1 := modePhase s processed
      let r2 := tapLoop s.options f.timestamp r1.1.cursor (r1.1.handStates, []) processed
      some ({ r1.1 with handStates := r2.1 }, r1.2 ++ r2.2)

/-- Engine state after a call to `update` (on an exception the engine
object is unchanged: the throw happens before any mutation). -/
def stepState (s : EngineState) (f : HandFrame) : EngineState :=
  match update s f with
  | some r => r.1
  | none => s

/-- Commands returned by a call to `update` (none on an exception). -/
def stepCmds (s : EngineState) (f : HandFrame) : List ViewportCommand :=
  match update s f with
  | some r => r.2
  | none => []

/-- Engine state after a sequence of `update` calls. -/
def runFrames (s : EngineState) : List HandFrame → EngineState
  | [] => s
  | f :: rest => runFrames (stepState s f) rest

/-! ## Viewport motion model (`OrbitViewportController.ts`) -/

/-- `Required<OrbitViewportInertiaConfig>` (after `mergeConfig`). -/
structure OrbitInertiaConfig where
  enabled : Bool
  rotationFriction : ℝ
  panFriction : ℝ
  zoomFriction : ℝ

/-- The `DEFAULT_INERTIA` constant. -/
def DEFAULT_INERTIA : OrbitInertiaConfig where
  enabled := false
  rotationFriction := 85 / 100
  panFriction := 8 / 10
  zoomFriction := 75 / 100

/-- The controller's configuration after `mergeConfig`.  `clampVertical`
is declared (and documented, default `true`) in `control-core/src/types.ts`
and is consumed by the sandbox app, and the inertia test suite exercises
`clampVertical: false`; the field is carried here so its (lack of) effect
can be stated. -/
structure OrbitConfig where
  radius : ℝ
  minRadius : ℝ
  maxRadius : ℝ
  rotationSpeed : ℝ
  panSpeed : ℝ
  zoomSpeed : ℝ
  inertia : OrbitInertiaConfig
  clampVertical : Bool

/-- The `DEFAULT_CONFIG` constant (with the documented `clampVertical`
default `true`). -/
def defaultOrbitConfig : OrbitConfig where
  radius := 40
  minRadius := 5
  maxRadius := 200
  rotationSpeed := 1 / 100
  panSpeed := 1 / 100
  zoomSpeed := 1 / 10
  inertia := DEFAULT_INERTIA
  clampVertical := true

/-- `OrbitViewportState` of `control-core/src/types.ts`. -/
structure OrbitViewportState where
  radius : ℝ
  theta : ℝ
  phi : ℝ
  panX : ℝ
  panY : ℝ

/-- All mutable fields of an `OrbitViewportController` instance. -/
structure ControllerState where
  config : OrbitConfig
  state : OrbitViewportState
  rotationVelocityTheta : ℝ
  rotationVelocityPhi : ℝ
  panVelocityX : ℝ
  panVelocityY : ℝ
  zoomVelocity : ℝ

/-- `new OrbitViewportController(config)` (with `config` already merged). -/
def mkController (config : OrbitConfig) : ControllerState where
  config := config
  state :=
    { radius := config.radius
      theta := 0
      phi := Real.pi / 2
      panX := 0
      panY := 0 }
  rotationVelocityTheta := 0
  rotationVelocityPhi := 0
  panVelocityX := 0
  panVelocityY := 0
  zoomVelocity := 0

/-- `clampPhi` of `OrbitViewportController.ts` (`EPS = 1e-4`).  Note the
source applies it unconditionally: nothing reads `config.clampVertical`. -/
def clampPhi (phi : ℝ) : ℝ :=
  min (max phi (1 / 10000)) (Real.pi - 1 / 10000)

/-- `clampRadius` of `OrbitViewportController.ts`. -/
def clampRadius (radius minRadius maxRadius : ℝ) : ℝ :=
  min (max radius minRadius) maxRadius

/-- `OrbitViewportController.handleWithInertia`. -/
def handleWithInertia (c : ControllerState) : ViewportCommand → ControllerState
  | ViewportCommand.ROTATE dx dy =>
    { c with
        rotationVelocityTheta := c.rotationVelocityTheta - dx * c.config.rotationSpeed
        rotationVelocityPhi := c.rotationVelocityPhi - dy * c.config.rotationSpeed }
  | ViewportCommand.PAN dx dy =>
    { c with
        panVelocityX := c.panVelocityX + dx * c.config.panSpeed
        panVelocityY := c.panVelocityY + dy * c.config.panSpeed }
  | ViewportCommand.ZOOM delta =>
    { c with zoomVelocity := c.zoomVelocity + delta * c.config.zoomSpeed }
  | ViewportCommand.POINTER_CLICK _ _ => c

/-- `OrbitViewportController.handle`. -/
def handle (c : ControllerState) (command : ViewportCommand) : ControllerState :=
  if c.config.inertia.enabled then handleWithInertia c command
  else
    match command with
    | ViewportCommand.ROTATE dx dy =>
      { c with state :=
          { c.state with
              theta := c.state.theta - dx * c.config.rotationSpeed
              phi := clampPhi (c.state.phi - dy * c.config.rotationSpeed) } }
    | ViewportCommand.PAN dx dy =>
      { c with state :=
          { c.state with
              panX := c.state.panX + dx * c.config.panSpeed
              panY := c.state.panY + dy * c.config.panSpeed } }
    | ViewportCommand.ZOOM delta =>
      { c with state :=
          { c.state with
              radius := clampRadius (c.state.radius * (1 - delta * c.config.zoomSpeed))
                c.config.minRadius c.config.maxRadius } }
    | ViewportCommand.POINTER_CLICK _ _ => c

/-- `zeroOutTinyVelocities` of `OrbitViewportController.ts` (`EPS = 1e-5`). -/
def zeroOutTinyVelocities (c : ControllerState) : ControllerState :=
  { c with
      rotationVelocityTheta :=
        if |c.rotationVelocityTheta| < 1 / 100000 then 0 else c.rotationVelocityTheta
      rotationVelocityPhi :=
        if |c.rotationVelocityPhi| < 1 / 100000 then 0 else c.rotationVelocityPhi
      panVelocityX := if |c.panVelocityX| < 1 / 100000 then 0 else c.panVelocityX
      panVelocityY := if |c.panVelocityY| < 1 / 100000 then 0 else c.panVelocityY
      zoomVelocity := if |c.zoomVelocity| < 1 / 100000 then 0 else c.zoomVelocity }

/-- `OrbitViewportController.update` (the inertial integration step).
`Math.pow(friction, dt)` is modelled with the real power `rpow`; `Math.log`
at a non-positive radius (JS `-Infinity`/`NaN`) has no real counterpart,
but every use of the result flows through `clampRadius`. -/
def updateController (c : ControllerState) (dtSeconds : ℝ) : ControllerState :=
  if c.config.inertia.enabled then
    if dtSeconds ≤ 0 then c
    else
      let dt := dtSeconds
      let nextLogRadius := Real.log c.state.radius - c.zoomVelocity * dt
      let c1 :=
        { c with state :=
            { c.state with
                theta := c.state.theta + c.rotationVelocityTheta * dt
                phi := clampPhi (c.state.phi + c.rotationVelocityPhi * dt)
                panX := c.state.panX + c.panVelocityX * dt
                panY := c.state.panY + c.panVelocityY * dt
                radius := clampRadius (Real.exp nextLogRadius)
                  c.config.minRadius c.config.maxRadius } }
      let c2 :=
        { c1 with
            rotationVelocityTheta :=
              c1.rotationVelocityTheta * c.config.inertia.rotationFriction ^ dt
            rotationVelocityPhi :=
              c1.rotationVelocityPhi * c.config.inertia.rotationFriction ^ dt
            panVelocityX := c1.panVelocityX * c.config.inertia.panFriction ^ dt
            panVelocityY := c1.panVelocityY * c.config.inertia.panFriction ^ dt
            zoomVelocity := c1.zoomVelocity * c.config.inertia.zoomFriction ^ dt }
      zeroOutTinyVelocities c2
  else c

/-- A call made by a host application to the controller. -/
inductive OrbitOp where
  | handleCmd (command : ViewportCommand)
  | tick (dtSeconds : ℝ)

/-- Apply one host call. -/
def applyOp (c : ControllerState) : OrbitOp → ControllerState
  | OrbitOp.handleCmd command => handle c command
  | OrbitOp.tick dt => updateController c dt

/-- Controller state after a sequence of host calls. -/
def runOps (c : ControllerState) : List OrbitOp → ControllerState
  | [] => c
  | op :: rest => runOps (applyOp c op) rest

/-! ## Auxiliary classifiers and comparison definitions -/

/-- Whether a command is a `POINTER_CLICK`. -/
def ViewportCommand.isPointerClick : ViewportCommand → Bool
  | ViewportCommand.POINTER_CLICK _ _ => true
  | _ => false

/-- Comparison definition following the spec's words for the hand-center:
"the mean of 5 palm/knuckle landmarks", indices `{0,5,9,13,17}` (a missing
entry contributes the spec's default coordinate `0`).  This is what the
spec asserts `processHand` computes; the source's `averageLandmarks` call
actually averages all landmarks. -/
def specPalmCenter (hand : TrackedHand) : Point :=
  let ids : List ℕ := [0, 5, 9, 13, 17]
  let xs := ids.map fun i => (hand.landmarks[i]?.map Landmark.x).getD 0
  let ys := ids.map fun i => (hand.landmarks[i]?.map Landmark.y).getD 0
  ⟨xs.sum / 5, ys.sum / 5⟩

/-! ## Concrete inputs used by counterexamples and witnesses -/

/-- A hand with an empty landmark list: `hand.landmarks[8]` is `undefined`
and `clamp01(indexTip.x)` throws in the source. -/
def emptyHand : TrackedHand := ⟨Handedness.Right, []⟩

/-- A frame containing `emptyHand`. -/
def emptyHandFrame : HandFrame := ⟨[emptyHand], 0⟩

/-- A frame with no hands at all. -/
def noHandsFrame : HandFrame := ⟨[], 5⟩

/-- 21 landmarks at the origin except landmark 8 at `(1,0)`: the mean of
all 21 landmarks is `(1/21, 0)` while the palm-landmark mean is `(0,0)`. -/
def handC2 : TrackedHand :=
  ⟨Handedness.Right, (List.replicate 21 (⟨0, 0⟩ : Landmark)).set 8 ⟨1, 0⟩⟩

/-- An open right hand: all landmarks at the origin except the thumb tip at
`(1/2, 0)`, so neither pinch holds.  Its center is `(1/42, 0)`. -/
def openHand : TrackedHand :=
  ⟨Handedness.Right, (List.replicate 21 (⟨0, 0⟩ : Landmark)).set 4 ⟨1 / 2, 0⟩⟩

/-- The same right hand fully pinched at `(1/2, 0)`: all 21 landmarks
coincide, so both pinches hold and the center is `(1/2, 0)`. -/
def pinchedHand : TrackedHand :=
  ⟨Handedness.Right, List.replicate 21 (⟨1 / 2, 0⟩ : Landmark)⟩

/-- Frame 1 of the C5 scenario: the open hand (CURSOR mode). -/
def openFrame : HandFrame := ⟨[openHand], 0⟩

/-- Frame 2 of the C5 scenario: the pinched hand. -/
def pinchedFrame : HandFrame := ⟨[pinchedHand], 100⟩

/-- A left hand fully pinched at `(1/5, 0)`. -/
def leftPinchedHand : TrackedHand :=
  ⟨Handedness.Left, List.replicate 21 (⟨1 / 5, 0⟩ : Landmark)⟩

/-- A second left hand, not pinching: landmarks at `(4/5, 0)` with the
thumb tip at `(3/10, 0)`.  Its center is `(163/210, 0)`. -/
def leftOpenHand : TrackedHand :=
  ⟨Handedness.Left, (List.replicate 21 (⟨4 / 5, 0⟩ : Landmark)).set 4 ⟨3 / 10, 0⟩⟩

/-- A frame holding two hands that share the handedness key `Left`. -/
def twoLeftFrame : HandFrame := ⟨[leftPinchedHand, leftOpenHand], 0⟩

/-- What `processHand` yields on `openHand`. -/
def phOpen : ProcessedHand :=
  ⟨Handedness.Right, ⟨1 / 42, 0⟩, ⟨0, 0⟩, false, false⟩

/-- What `processHand` yields on `pinchedHand`. -/
def phPinched : ProcessedHand :=
  ⟨Handedness.Right, ⟨1 / 2, 0⟩, ⟨1 / 2, 0⟩, true, true⟩

/-- What `processHand` yields on `leftPinchedHand`. -/
def phLeftPinched : ProcessedHand :=
  ⟨Handedness.Left, ⟨1 / 5, 0⟩, ⟨1 / 5, 0⟩, true, true⟩

/-- What `processHand` yields on `leftOpenHand`. -/
def phLeftOpen : ProcessedHand :=
  ⟨Handedness.Left, ⟨163 / 210, 0⟩, ⟨4 / 5, 0⟩, false, false⟩

/-- What `processHand` yields on `handC2` (center is the mean of all 21
landmarks; the middle-pinch flag fires spuriously because thumb and middle
tips share the default origin). -/
def phC2 : ProcessedHand :=
  ⟨Handedness.Right, ⟨1 / 21, 0⟩, ⟨1, 0⟩, false, true⟩

/-- Engine state after `update (initialEngine DEFAULTS) openFrame`: CURSOR
mode, cursor at the clamped index tip, and — the point of claim C5 — the
tap loop has stored `lastCenter = (1/42, 0)` even though the CURSOR branch
first cleared it. -/
def stateAfterOpen : EngineState where
  options := DEFAULTS
  cursor := ⟨0, 0⟩
  mode := GestureMode.CURSOR
  primaryHand := some Handedness.Right
  handStates := Function.update (fun _ => freshHandState) Handedness.Right
    { pinchIndexActive := false
      pinchMiddleActive := false
      pinchStartTime := none
      lastCenter := some ⟨1 / 42, 0⟩ }
  lastZoomDistance := none

/-- Engine state after `update (initialEngine DEFAULTS) twoLeftFrame`:
PAN mode driven by the first left hand, and the shared `Left` runtime
state was last written by the second (non-pinching) left hand. -/
def stateAfterTwoLeft : EngineState where
  options := DEFAULTS
  cursor := ⟨1 / 5, 0⟩
  mode := GestureMode.PAN
  primaryHand := some Handedness.Left
  handStates := Function.update (fun _ => freshHandState) Handedness.Left
    { pinchIndexActive := false
      pinchMiddleActive := false
      pinchStartTime := none
      lastCenter := some ⟨163 / 210, 0⟩ }
  lastZoomDistance := none

/-- A right hand that is middle-pinching but not index-pinching: landmarks
at the origin except the thumb tip at `(1/2, 0)` and the middle tip at
`(9/20, 0)` (thumb–middle distance `1/20 < 0.07`, thumb–index distance
`1/2 ≥ 0.06`). -/
def middlePinchHand : TrackedHand :=
  ⟨Handedness.Right,
    ((List.replicate 21 (⟨0, 0⟩ : Landmark)).set 4 ⟨1 / 2, 0⟩).set 12 ⟨9 / 20, 0⟩⟩

/-- What `processHand` yields on `middlePinchHand`. -/
def phMiddlePinch : ProcessedHand :=
  ⟨Handedness.Right, ⟨19 / 420, 0⟩, ⟨0, 0⟩, false, true⟩

/-- A frame holding two hands that share the handedness key `Right`: the
middle-pinching hand first, the open hand second. -/
def twoRightFrame : HandFrame := ⟨[middlePinchHand, openHand], 0⟩

/-- Engine state primed for a falling pinch edge: the stored right-hand
state says the index pinch was active since time 0. -/
def primedEngine : EngineState :=
  { initialEngine DEFAULTS with
      handStates := Function.update (fun _ => freshHandState) Handedness.Right
        { pinchIndexActive := true
          pinchMiddleActive := false
          pinchStartTime := some 0
          lastCenter := some ⟨1 / 42, 0⟩ } }

/-- Controller configuration exercised by the repository's own inertia
test: `rotationSpeed: 1, clampVertical: false`. -/
def clampVerticalOffConfig : OrbitConfig :=
  { defaultOrbitConfig with rotationSpeed := 1, clampVertical := false }

/-- Base configuration for the zoom-equivalence counterexample: radius 1,
wide radius bounds, `zoomSpeed` 1, all friction constants 1. -/
def zoomCfgDirect : OrbitConfig where
  radius := 1
  minRadius := 1 / 100
  maxRadius := 100
  rotationSpeed := 1 / 100
  panSpeed := 1 / 100
  zoomSpeed := 1
  inertia := { enabled := false, rotationFriction := 1, panFriction := 1, zoomFriction := 1 }
  clampVertical := true

/-- The same configuration with inertial mode enabled. -/
def zoomCfgInertial : OrbitConfig :=
  { zoomCfgDirect with
      inertia := { zoomCfgDirect.inertia with enabled := true } }

/-- Configuration for the zoom-equivalence witness: the default speeds and
bounds with friction 1 and inertia enabled. -/
def zoomCfgWitness : OrbitConfig :=
  { defaultOrbitConfig with
      inertia := { enabled := true, rotationFriction := 1, panFriction := 1, zoomFriction := 1 } }

/-! ## Lemmas about the viewport motion model -/

theorem clampRadius_le {r mn mx : ℝ} : clampRadius r mn mx ≤ mx :=
  min_le_right _ _

theorem le_clampRadius {r mn mx : ℝ} (h : mn ≤ mx) : mn ≤ clampRadius r mn mx :=
  le_min (le_max_right r mn) h

theorem clampRadius_of_mem {r mn mx : ℝ} (h1 : mn ≤ r) (h2 : r ≤ mx) :
    clampRadius r mn mx = r := by
  rw [clampRadius, max_eq_left h1, min_eq_left h2]

/-- Radius bounds seen by one host call, together with configuration
preservation. -/
theorem applyOp_radius_inv (c : ControllerState) (op : OrbitOp)
    (hmm : c.config.minRadius ≤ c.config.maxRadius)
    (h1 : c.config.minRadius ≤ c.state.radius)
    (h2 : c.state.radius ≤ c.config.maxRadius) :
    (applyOp c op).config = c.config ∧
      c.config.minRadius ≤ (applyOp c op).state.radius ∧
      (applyOp c op).state.radius ≤ c.config.maxRadius := by
  cases op with
  | handleCmd command =>
    simp only [applyOp, handle]
    by_cases hen : c.config.inertia.enabled
    · simp only [if_pos hen]
      cases command <;> exact ⟨rfl, h1, h2⟩
    · simp only [if_neg hen]
      cases command with
      | PAN dx dy => exact ⟨rfl, h1, h2⟩
      | ROTATE dx dy => exact ⟨rfl, h1, h2⟩
      | ZOOM delta => exact ⟨rfl, le_clampRadius hmm, clampRadius_le⟩
      | POINTER_CLICK x y => exact ⟨rfl, h1, h2⟩
  | tick dt =>
    simp only [applyOp, updateController]
    by_cases hen : c.config.inertia.enabled
    · simp only [if_pos hen]
      by_cases hdt : dt ≤ 0
      · simp only [if_pos hdt]; exact ⟨by trivial, h1, h2⟩
      · simp only [if_neg hdt]
        exact ⟨by trivial, le_clampRadius hmm, clampRadius_le⟩
    · simp only [if_neg hen]; exact ⟨by trivial, h1, h2⟩

/-- The radius invariant is preserved by any sequence of host calls. -/
theorem runOps_radius_inv (ops : List OrbitOp) :
    ∀ c : ControllerState, c.config.minRadius ≤ c.config.maxRadius →
      c.config.minRadius ≤ c.state.radius → c.state.radius ≤ c.config.maxRadius →
      (runOps c ops).config = c.config ∧
        c.config.minRadius ≤ (runOps c ops).state.radius ∧
        (runOps c ops).state.radius ≤ c.config.maxRadius := by
  induction ops with
  | nil => exact fun c _ h1 h2 => ⟨rfl, h1, h2⟩
  | cons op rest ih =>
    intro c hmm h1 h2
    obtain ⟨hc, hr1, hr2⟩ := applyOp_radius_inv c op hmm h1 h2
    obtain ⟨hc', hr1', hr2'⟩ := ih (applyOp c op) (hc ▸ hmm) (hc ▸ hr1) (hc ▸ hr2)
    exact ⟨hc ▸ hc', hc ▸ hr1', hc ▸ hr2'⟩

/-- C6: for every sequence of `handle`/`update` calls on an
`OrbitViewportController` whose configuration has `minRadius ≤ maxRadius`
and whose initial radius lies in `[minRadius, maxRadius]`, the radius
stays in `[minRadius, maxRadius]` at all times, in both direct and
inertial modes. -/
theorem radius_always_within_bounds (cfg : OrbitConfig) (ops : List OrbitOp)
    (hmm : cfg.minRadius ≤ cfg.maxRadius)
    (h1 : cfg.minRadius ≤ cfg.radius) (h2 : cfg.radius ≤ cfg.maxRadius) :
    cfg.minRadius ≤ (runOps (mkController cfg) ops).state.radius ∧
      (runOps (mkController cfg) ops).state.radius ≤ cfg.maxRadius :=
  (runOps_radius_inv ops (mkController cfg) hmm h1 h2).2

/-- Concrete instance of `radius_always_within_bounds`: the default
configuration surviving a zoom impulse and an inertial tick. -/
theorem radius_always_within_bounds_witness :
    defaultOrbitConfig.minRadius ≤ defaultOrbitConfig.maxRadius ∧
      defaultOrbitConfig.minRadius ≤ defaultOrbitConfig.radius ∧
      defaultOrbitConfig.radius ≤ defaultOrbitConfig.maxRadius ∧
      (defaultOrbitConfig.minRadius ≤
          (runOps (mkController defaultOrbitConfig)
            [OrbitOp.handleCmd (ViewportCommand.ZOOM 3), OrbitOp.tick 1]).state.radius ∧
        (runOps (mkController defaultOrbitConfig)
            [OrbitOp.handleCmd (ViewportCommand.ZOOM 3), OrbitOp.tick 1]).state.radius ≤
          defaultOrbitConfig.maxRadius) :=
  ⟨by norm_num [defaultOrbitConfig], by norm_num [defaultOrbitConfig],
    by norm_num [defaultOrbitConfig],
    radius_always_within_bounds defaultOrbitConfig
      [OrbitOp.handleCmd (ViewportCommand.ZOOM 3), OrbitOp.tick 1]
      (by norm_num [defaultOrbitConfig]) (by norm_num [defaultOrbitConfig])
      (by norm_num [defaultOrbitConfig])⟩

/-- C3: evaluation of the code at the failing input of the repository's
own test "allows upside-down when clampVertical is false".  With
`rotationSpeed = 1` and `clampVertical: false`, `ROTATE{dx:0, dy:-2π}`
leaves `phi = π - 1e-4`: the controller clamps `phi` unconditionally, so
the documented/tested `clampVertical` flag has no effect and `phi` never
exceeds `π`. -/
theorem rotate_clamps_phi_despite_clampVertical_false :
    (handle (mkController clampVerticalOffConfig)
        (ViewportCommand.ROTATE 0 (-(2 * Real.pi)))).state.phi = Real.pi - 1 / 10000 ∧
      ¬ Real.pi <
        (handle (mkController clampVerticalOffConfig)
          (ViewportCommand.ROTATE 0 (-(2 * Real.pi)))).state.phi := by
  have hpi := Real.pi_gt_three
  have hval : (handle (mkController clampVerticalOffConfig)
      (ViewportCommand.ROTATE 0 (-(2 * Real.pi)))).state.phi
      = clampPhi (Real.pi / 2 - -(2 * Real.pi) * 1) := by
    simp [handle, mkController, clampVerticalOffConfig, defaultOrbitConfig, DEFAULT_INERTIA]
  have hphi : clampPhi (Real.pi / 2 - -(2 * Real.pi) * 1) = Real.pi - 1 / 10000 := by
    rw [clampPhi, max_eq_left (by nlinarith), min_eq_right (by nlinarith)]
  refine ⟨hval.trans hphi, ?_⟩
  rw [hval, hphi]
  intro hcon
  nlinarith

/-! ## Direct versus inertial zoom -/

theorem one_hundredth_lt_exp_neg_one : (1 / 100 : ℝ) < Real.exp (-1) := by
  have h1 : Real.exp 1 < 100 := lt_trans Real.exp_one_lt_d9 (by norm_num)
  have h2 : (0 : ℝ) < Real.exp 1 := Real.exp_pos 1
  have h3 := one_div_lt_one_div_of_lt h2 h1
  rw [Real.exp_neg, ← one_div]
  exact h3

theorem exp_neg_one_le_hundred : Real.exp (-1) ≤ (100 : ℝ) := by
  have : Real.exp (-1) ≤ Real.exp 0 := Real.exp_le_exp.mpr (by norm_num)
  rw [Real.exp_zero] at this
  linarith

/-- C4 counterexample: with radius 1, `zoomSpeed` 1, all frictions 1 and
wide bounds, a direct `ZOOM{delta:1}` leaves radius `1/100` (the factor
`1 - d·zoomSpeed` collapses to 0 and is clamped), while the inertial
`ZOOM{delta:1}` followed by `update(1.0)` leaves radius `exp(-1)`: the two
modes do not produce the same fractional radius change. -/
theorem zoom_direct_vs_inertial_counterexample :
    (handle (mkController zoomCfgDirect) (ViewportCommand.ZOOM 1)).state.radius = 1 / 100 ∧
      (updateController (handle (mkController zoomCfgInertial) (ViewportCommand.ZOOM 1))
          1).state.radius = Real.exp (-1) ∧
      (handle (mkController zoomCfgDirect) (ViewportCommand.ZOOM 1)).state.radius ≠
        (updateController (handle (mkController zoomCfgInertial) (ViewportCommand.ZOOM 1))
          1).state.radius := by
  have hd : (handle (mkController zoomCfgDirect) (ViewportCommand.ZOOM 1)).state.radius
      = 1 / 100 := by
    simp only [handle, mkController, zoomCfgDirect]
    norm_num [clampRadius, max_def, min_def]
  have hi : (updateController (handle (mkController zoomCfgInertial) (ViewportCommand.ZOOM 1))
      1).state.radius = Real.exp (-1) := by
    simp only [updateController, handle, handleWithInertia, mkController, zoomCfgInertial,
      zoomCfgDirect, zeroOutTinyVelocities]
    norm_num [Real.log_one]
    rw [clampRadius, max_eq_left (le_of_lt one_hundredth_lt_exp_neg_one),
      min_eq_left exp_neg_one_le_hundred]
  exact ⟨hd, hi, by rw [hd, hi]; exact ne_of_lt one_hundredth_lt_exp_neg_one⟩

/-- C4 amended: away from the radius bounds, a direct `ZOOM{delta:d}`
multiplies the radius by `1 - d·zoomSpeed`, while an inertial
`ZOOM{delta:d}` followed by one `update(1.0)` multiplies it by
`exp(-d·zoomSpeed)` (friction does not enter the first tick's radius);
whenever `d·zoomSpeed ≠ 0` the inertial result is strictly larger, so the
two fractional changes agree only to first order, not exactly. -/
theorem zoom_direct_vs_inertial_amended (cfg : OrbitConfig) (d : ℝ)
    (hr : 0 < cfg.radius)
    (hen : cfg.inertia.enabled = true)
    (hd1 : cfg.minRadius ≤ cfg.radius * (1 - d * cfg.zoomSpeed))
    (hd2 : cfg.radius * (1 - d * cfg.zoomSpeed) ≤ cfg.maxRadius)
    (hi1 : cfg.minRadius ≤ cfg.radius * Real.exp (-(d * cfg.zoomSpeed)))
    (hi2 : cfg.radius * Real.exp (-(d * cfg.zoomSpeed)) ≤ cfg.maxRadius) :
    (handle (mkController { cfg with inertia := { cfg.inertia with enabled := false } })
        (ViewportCommand.ZOOM d)).state.radius = cfg.radius * (1 - d * cfg.zoomSpeed) ∧
      (updateController (handle (mkController cfg) (ViewportCommand.ZOOM d)) 1).state.radius
        = cfg.radius * Real.exp (-(d * cfg.zoomSpeed)) ∧
      (d * cfg.zoomSpeed ≠ 0 →
        (handle (mkController { cfg with inertia := { cfg.inertia with enabled := false } })
            (ViewportCommand.ZOOM d)).state.radius <
          (updateController (handle (mkController cfg) (ViewportCommand.ZOOM d)) 1).state.radius) := by
  have hdirect : (handle (mkController { cfg with inertia := { cfg.inertia with enabled := false } })
      (ViewportCommand.ZOOM d)).state.radius = cfg.radius * (1 - d * cfg.zoomSpeed) := by
    simp only [handle, mkController]
    norm_num
    exact clampRadius_of_mem hd1 hd2
  have hinertial : (updateController (handle (mkController cfg) (ViewportCommand.ZOOM d))
      1).state.radius = cfg.radius * Real.exp (-(d * cfg.zoomSpeed)) := by
    simp only [updateController, handle, handleWithInertia, mkController, zeroOutTinyVelocities,
      hen, if_true]
    norm_num
    have hexp : Real.exp (Real.log cfg.radius - d * cfg.zoomSpeed)
        = cfg.radius * Real.exp (-(d * cfg.zoomSpeed)) := by
      rw [sub_eq_add_neg, Real.exp_add, Real.exp_log hr]
    rw [hexp]
    exact clampRadius_of_mem hi1 hi2
  refine ⟨hdirect, hinertial, fun hne => ?_⟩
  rw [hdirect, hinertial]
  have hlt : 1 - d * cfg.zoomSpeed < Real.exp (-(d * cfg.zoomSpeed)) := by
    have := Real.add_one_lt_exp (neg_ne_zero.mpr hne)
    linarith
  exact mul_lt_mul_of_pos_left hlt hr

theorem exp_neg_tenth_ge : (9 / 10 : ℝ) ≤ Real.exp (-(1 / 10)) := by
  have := Real.add_one_le_exp (-(1 / 10) : ℝ)
  linarith

theorem exp_neg_tenth_le_one : Real.exp (-(1 / 10) : ℝ) ≤ 1 := by
  have : Real.exp (-(1 / 10) : ℝ) ≤ Real.exp 0 := Real.exp_le_exp.mpr (by norm_num)
  rw [Real.exp_zero] at this
  exact this

/-- Concrete instance of `zoom_direct_vs_inertial_amended`: default bounds
and speeds, friction 1, delta 1. -/
theorem zoom_direct_vs_inertial_amended_witness :
    (0 : ℝ) < zoomCfgWitness.radius ∧
      zoomCfgWitness.inertia.enabled = true ∧
      zoomCfgWitness.minRadius ≤ zoomCfgWitness.radius * (1 - 1 * zoomCfgWitness.zoomSpeed) ∧
      zoomCfgWitness.radius * (1 - 1 * zoomCfgWitness.zoomSpeed) ≤ zoomCfgWitness.maxRadius ∧
      zoomCfgWitness.minRadius ≤
        zoomCfgWitness.radius * Real.exp (-(1 * zoomCfgWitness.zoomSpeed)) ∧
      zoomCfgWitness.radius * Real.exp (-(1 * zoomCfgWitness.zoomSpeed)) ≤
        zoomCfgWitness.maxRadius ∧
      ((handle (mkController
            { zoomCfgWitness with
                inertia := { zoomCfgWitness.inertia with enabled := false } })
          (ViewportCommand.ZOOM 1)).state.radius
          = zoomCfgWitness.radius * (1 - 1 * zoomCfgWitness.zoomSpeed) ∧
        (updateController (handle (mkController zoomCfgWitness) (ViewportCommand.ZOOM 1))
            1).state.radius
          = zoomCfgWitness.radius * Real.exp (-(1 * zoomCfgWitness.zoomSpeed)) ∧
        (1 * zoomCfgWitness.zoomSpeed ≠ 0 →
          (handle (mkController
              { zoomCfgWitness with
                  inertia := { zoomCfgWitness.inertia with enabled := false } })
            (ViewportCommand.ZOOM 1)).state.radius <
            (updateController (handle (mkController zoomCfgWitness) (ViewportCommand.ZOOM 1))
              1).state.radius)) := by
  have hhi1 : zoomCfgWitness.minRadius ≤
      zoomCfgWitness.radius * Real.exp (-(1 * zoomCfgWitness.zoomSpeed)) := by
    have h := exp_neg_tenth_ge
    simp only [zoomCfgWitness, defaultOrbitConfig]
    norm_num
    linarith
  have hhi2 : zoomCfgWitness.radius * Real.exp (-(1 * zoomCfgWitness.zoomSpeed)) ≤
      zoomCfgWitness.maxRadius := by
    have h := exp_neg_tenth_le_one
    have hpos := Real.exp_pos (-(1 / 10) : ℝ)
    simp only [zoomCfgWitness, defaultOrbitConfig]
    norm_num
    linarith
  exact ⟨by norm_num [zoomCfgWitness, defaultOrbitConfig], rfl,
    by norm_num [zoomCfgWitness, defaultOrbitConfig],
    by norm_num [zoomCfgWitness, defaultOrbitConfig], hhi1, hhi2,
    zoom_direct_vs_inertial_amended zoomCfgWitness 1
      (by norm_num [zoomCfgWitness, defaultOrbitConfig]) rfl
      (by norm_num [zoomCfgWitness, defaultOrbitConfig])
      (by norm_num [zoomCfgWitness, defaultOrbitConfig]) hhi1 hhi2⟩

/-! ## Basic lemmas about hand processing -/

theorem processHand_handedness {opts : GestureEngineOptions} {hand : TrackedHand}
    {ph : ProcessedHand} (h : processHand opts hand = some ph) :
    ph.handedness = hand.handedness := by
  cases hg : hand.landmarks[8]? with
  | none =>
    simp only [processHand, hg] at h
    exact Option.noConfusion h
  | some it =>
    simp only [processHand, hg, Option.some.injEq] at h
    rw [← h]

theorem processHand_isSome (opts : GestureEngineOptions) (hand : TrackedHand) :
    (processHand opts hand).isSome ↔ 8 < hand.landmarks.length := by
  rw [show (8 < hand.landmarks.length) ↔ ¬hand.landmarks[8]? = none by
    rw [List.getElem?_eq_none_iff]; omega]
  cases hg : hand.landmarks[8]? <;> simp [processHand, hg]

theorem processAll_isSome (opts : GestureEngineOptions) (hands : List TrackedHand) :
    (processAll opts hands).isSome ↔ ∀ hand ∈ hands, 8 < hand.landmarks.length := by
  induction hands with
  | nil => simp [processAll]
  | cons hand rest ih =>
    rw [processAll]
    cases hph : processHand opts hand with
    | none =>
      have hn : ¬8 < hand.landmarks.length := by
        rw [← processHand_isSome opts hand, hph]; simp
      simp [hn]
    | some ph =>
      have h8 : 8 < hand.landmarks.length := by
        rw [← processHand_isSome opts hand, hph]; simp
      cases hrest : processAll opts rest with
      | none =>
        rw [hrest] at ih
        simp only [Option.isSome_none, Bool.false_eq_true, false_iff] at ih
        simp only [Option.isSome_some, Option.isSome_none, Bool.false_eq_true, false_iff]
        intro hall
        exact ih fun hd hm => hall hd (List.mem_cons_of_mem _ hm)
      | some ps =>
        rw [hrest] at ih
        simp only [Option.isSome_some, true_iff] at ih
        simp only [Option.isSome_some, true_iff, List.mem_cons]
        rintro a (rfl | ha)
        · exact h8
        · exact ih a ha

theorem processAll_map_handedness (opts : GestureEngineOptions) :
    ∀ {hands : List TrackedHand} {ps : List ProcessedHand},
      processAll opts hands = some ps →
      ps.map ProcessedHand.handedness = hands.map TrackedHand.handedness := by
  intro hands
  induction hands with
  | nil =>
    intro ps h
    rw [processAll] at h
    injection h with h
    rw [← h]; rfl
  | cons hand rest ih =>
    intro ps h
    rw [processAll] at h
    cases hph : processHand opts hand with
    | none => rw [hph] at h; exact absurd h (by simp)
    | some ph =>
      cases hrest : processAll opts rest with
      | none => rw [hph, hrest] at h; exact absurd h (by simp)
      | some pt =>
        rw [hph, hrest] at h
        injection h with h
        rw [← h]
        simp [processHand_handedness hph, ih hrest]

theorem processAll_mem_of_mem (opts : GestureEngineOptions) :
    ∀ {hands : List TrackedHand} {ps : List ProcessedHand} {hand : TrackedHand}
      {ph : ProcessedHand}, processAll opts hands = some ps → hand ∈ hands →
      processHand opts hand = some ph → ph ∈ ps := by
  intro hands
  induction hands with
  | nil => intro ps hand ph _ hmem; exact absurd hmem (List.not_mem_nil hand)
  | cons hd rest ih =>
    intro ps hand ph hall hmem hph
    rw [processAll] at hall
    cases hhd : processHand opts hd with
    | none => rw [hhd] at hall; exact absurd hall (by simp)
    | some ph0 =>
      cases hrest : processAll opts rest with
      | none => rw [hhd, hrest] at hall; exact absurd hall (by simp)
      | some pt =>
        rw [hhd, hrest] at hall
        injection hall with hall
        rw [← hall]
        rcases List.mem_cons.mp hmem with heq | hmem'
        · rw [heq] at hph
          rw [hph] at hhd
          injection hhd with hhd
          rw [hhd]
          exact List.mem_cons_self _ _
        · exact List.mem_cons_of_mem _ (ih hrest hmem' hph)

theorem processAll_mem (opts : GestureEngineOptions) :
    ∀ {hands : List TrackedHand} {ps : List ProcessedHand},
      processAll opts hands = some ps →
      ∀ ph ∈ ps, ∃ hand ∈ hands, processHand opts hand = some ph := by
  intro hands
  induction hands with
  | nil =>
    intro ps h ph hmem
    rw [processAll] at h
    injection h with h
    rw [← h] at hmem
    exact absurd hmem (List.not_mem_nil ph)
  | cons hd rest ih =>
    intro ps h ph hmem
    rw [processAll] at h
    cases hhd : processHand opts hd with
    | none => rw [hhd] at h; exact absurd h (by simp)
    | some ph0 =>
      cases hrest : processAll opts rest with
      | none => rw [hhd, hrest] at h; exact absurd h (by simp)
      | some pt =>
        rw [hhd, hrest] at h
        injection h with h
        rw [← h] at hmem
        rcases List.mem_cons.mp hmem with heq | hmem'
        · exact ⟨hd, List.mem_cons_self _ _, heq ▸ hhd⟩
        · obtain ⟨hand, hh, hp⟩ := ih hrest ph hmem'
          exact ⟨hand, List.mem_cons_of_mem _ hh, hp⟩

/-! ## C1: totality of `update` -/

/-- C1 counterexample: a hand whose landmark list is empty (landmark 8
absent) makes `GestureEngine.update` throw — the source dereferences
`undefined` at `clamp01(indexTip.x)` — modelled by the `none` result, so
`update` does not return normally for every `HandFrame`. -/
theorem update_throws_on_missing_index_landmark :
    update (initialEngine DEFAULTS) emptyHandFrame = none := rfl

/-- C1 amended: `update` returns normally exactly when every hand of the
frame has its index-fingertip landmark (index 8) present, i.e. more than 8
landmarks.  Coordinates missing at indices 4 or 12 only contribute the
`?? 0` default inside `distance2D` (possibly yielding spurious pinches),
but a hand missing landmark 8 raises instead of degrading. -/
theorem update_total_iff (s : EngineState) (f : HandFrame) :
    (update s f).isSome ↔ ∀ hand ∈ f.hands, 8 < hand.landmarks.length := by
  rw [← processAll_isSome s.options f.hands]
  unfold update
  cases hp : processAll s.options f.hands with
  | none => simp
  | some processed => cases processed <;> simp

/-! ## C7: the cursor invariant -/

theorem clamp01_nonneg (v : ℝ) : 0 ≤ clamp01 v :=
  le_min zero_le_one (le_max_left 0 v)

theorem clamp01_le_one (v : ℝ) : clamp01 v ≤ 1 :=
  min_le_left _ _

theorem processHand_indexTip_bounds {opts : GestureEngineOptions} {hand : TrackedHand}
    {ph : ProcessedHand} (h : processHand opts hand = some ph) :
    0 ≤ ph.indexTip.x ∧ ph.indexTip.x ≤ 1 ∧ 0 ≤ ph.indexTip.y ∧ ph.indexTip.y ≤ 1 := by
  cases hg : hand.landmarks[8]? with
  | none =>
    simp only [processHand, hg] at h
    exact Option.noConfusion h
  | some it =>
    simp only [processHand, hg, Option.some.injEq] at h
    rw [← h]
    exact ⟨clamp01_nonneg _, clamp01_le_one _, clamp01_nonneg _, clamp01_le_one _⟩

theorem primaryPhase_cursor (s : EngineState) (a : ProcessedHand) :
    (primaryPhase s a).1.cursor = a.indexTip := by
  simp only [primaryPhase]
  split
  · rfl
  · split <;> rfl

theorem modePhase_cursor (s : EngineState) (ps : List ProcessedHand) :
    (modePhase s ps).1.cursor = s.cursor ∨
      ∃ a ∈ ps, (modePhase s ps).1.cursor = a.indexTip := by
  rcases ps with _ | ⟨a, _ | ⟨b, rest⟩⟩
  · exact Or.inl rfl
  · exact Or.inr ⟨a, by simp, primaryPhase_cursor s a⟩
  · simp only [modePhase]
    split
    · exact Or.inl rfl
    · exact Or.inr ⟨a, by simp, primaryPhase_cursor s a⟩

theorem stepState_cursor (s : EngineState) (f : HandFrame) :
    (stepState s f).cursor = s.cursor ∨
      ∃ hand ph, processHand s.options hand = some ph ∧
        (stepState s f).cursor = ph.indexTip := by
  rw [stepState]
  cases hp : processAll s.options f.hands with
  | none =>
    have hu : update s f = none := by rw [update, hp]
    rw [hu]
    exact Or.inl rfl
  | some ps =>
    cases ps with
    | nil =>
      have hu : update s f = some ({ s with
          mode := GestureMode.IDLE
          primaryHand := none
          lastZoomDistance := none }, []) := by
        rw [update, hp]
      rw [hu]
      exact Or.inl rfl
    | cons a rest =>
      have hu : update s f = some
          ({ (modePhase s (a :: rest)).1 with
              handStates := (tapLoop s.options f.timestamp (modePhase s (a :: rest)).1.cursor
                ((modePhase s (a :: rest)).1.handStates, []) (a :: rest)).1 },
            (modePhase s (a :: rest)).2 ++
              (tapLoop s.options f.timestamp (modePhase s (a :: rest)).1.cursor
                ((modePhase s (a :: rest)).1.handStates, []) (a :: rest)).2) := by
        rw [update, hp]
      rw [hu]
      rcases modePhase_cursor s (a :: rest) with hc | ⟨ph, hmem, hc⟩
      · exact Or.inl hc
      · obtain ⟨hand, _, hph⟩ := processAll_mem s.options hp ph hmem
        exact Or.inr ⟨hand, ph, hph, hc⟩

theorem stepState_cursor_bounds (s : EngineState) (f : HandFrame)
    (h : 0 ≤ s.cursor.x ∧ s.cursor.x ≤ 1 ∧ 0 ≤ s.cursor.y ∧ s.cursor.y ≤ 1) :
    0 ≤ (stepState s f).cursor.x ∧ (stepState s f).cursor.x ≤ 1 ∧
      0 ≤ (stepState s f).cursor.y ∧ (stepState s f).cursor.y ≤ 1 := by
  rcases stepState_cursor s f with hc | ⟨hand, ph, hph, hc⟩
  · rw [hc]; exact h
  · rw [hc]; exact processHand_indexTip_bounds hph

theorem runFrames_cursor_bounds (frames : List HandFrame) :
    ∀ s : EngineState, (0 ≤ s.cursor.x ∧ s.cursor.x ≤ 1 ∧ 0 ≤ s.cursor.y ∧ s.cursor.y ≤ 1) →
      0 ≤ (runFrames s frames).cursor.x ∧ (runFrames s frames).cursor.x ≤ 1 ∧
        0 ≤ (runFrames s frames).cursor.y ∧ (runFrames s frames).cursor.y ≤ 1 := by
  induction frames with
  | nil => exact fun s h => h
  | cons f rest ih => exact fun s h => ih (stepState s f) (stepState_cursor_bounds s f h)

/-- C7: across every sequence of `update` calls the cursor starts at
`(0.5, 0.5)` and both coordinates always stay within `[0,1]`: the cursor
is only ever overwritten with a `clamp01`-clamped index-fingertip position
(by `processHand`), and frames with no hands or in two-hand ZOOM mode
leave it unchanged. -/
theorem cursor_always_in_unit_square (opts : GestureEngineOptions) (frames : List HandFrame) :
    (initialEngine opts).cursor = ⟨1 / 2, 1 / 2⟩ ∧
      (0 ≤ (runFrames (initialEngine opts) frames).cursor.x ∧
        (runFrames (initialEngine opts) frames).cursor.x ≤ 1 ∧
        0 ≤ (runFrames (initialEngine opts) frames).cursor.y ∧
        (runFrames (initialEngine opts) frames).cursor.y ≤ 1) :=
  ⟨rfl, runFrames_cursor_bounds frames (initialEngine opts) (by norm_num [initialEngine])⟩

/-! ## The tap-detection loop -/

theorem update_eq_cons (s : EngineState) (f : HandFrame) (a : ProcessedHand)
    (rest : List ProcessedHand) (hp : processAll s.options f.hands = some (a :: rest)) :
    update s f = some
      ({ (modePhase s (a :: rest)).1 with
          handStates := (tapLoop s.options f.timestamp (modePhase s (a :: rest)).1.cursor
            ((modePhase s (a :: rest)).1.handStates, []) (a :: rest)).1 },
        (modePhase s (a :: rest)).2 ++
          (tapLoop s.options f.timestamp (modePhase s (a :: rest)).1.cursor
            ((modePhase s (a :: rest)).1.handStates, []) (a :: rest)).2) := by
  rw [update, hp]

theorem tapHand_lastCenter (opts : GestureEngineOptions) (ts : ℝ) (cur : Point)
    (st : HandRuntimeState) (hand : ProcessedHand) :
    (tapHand opts ts cur st hand).1.lastCenter = some hand.center := rfl

theorem tapHand_pinchIndexActive (opts : GestureEngineOptions) (ts : ℝ) (cur : Point)
    (st : HandRuntimeState) (hand : ProcessedHand) :
    (tapHand opts ts cur st hand).1.pinchIndexActive = hand.pinchIndex := rfl

theorem tapHand_cmds_cases (opts : GestureEngineOptions) (ts : ℝ) (cur : Point)
    (st : HandRuntimeState) (hand : ProcessedHand) :
    (tapHand opts ts cur st hand).2 = [] ∨
      (tapHand opts ts cur st hand).2 = [ViewportCommand.POINTER_CLICK cur.x cur.y] := by
  simp only [tapHand]
  split
  · split
    · split
      · exact Or.inr rfl
      · exact Or.inl rfl
    · exact Or.inl rfl
  · exact Or.inl rfl

theorem tapHand_click (opts : GestureEngineOptions) (ts : ℝ) (cur : Point)
    (st : HandRuntimeState) (hand : ProcessedHand) (t0 : ℝ)
    (ha : st.pinchIndexActive = true) (hpi : hand.pinchIndex = false)
    (hpm : hand.pinchMiddle = false) (hst : st.pinchStartTime = some t0)
    (hdur : ts - t0 ≤ opts.tapMaxDurationMs) :
    (tapHand opts ts cur st hand).2 = [ViewportCommand.POINTER_CLICK cur.x cur.y] ∧
      (tapHand opts ts cur st hand).1.pinchStartTime = none := by
  simp [tapHand, ha, hpi, hpm, hst, hdur]

theorem tapLoop_cmds_append (opts : GestureEngineOptions) (ts : ℝ) (cur : Point) :
    ∀ (hs : List ProcessedHand) (states : Handedness → HandRuntimeState)
      (acc : List ViewportCommand),
      (tapLoop opts ts cur (states, acc) hs).2 =
        acc ++ (tapLoop opts ts cur (states, []) hs).2 := by
  intro hs
  induction hs with
  | nil => intro states acc; simp [tapLoop]
  | cons hand rest ih =>
    intro states acc
    simp only [tapLoop, List.nil_append]
    rw [ih, ih (Function.update states hand.handedness
      (tapHand opts ts cur (states hand.handedness) hand).1)
      ((tapHand opts ts cur (states hand.handedness) hand).2), List.append_assoc]

theorem tapLoop_cmds_all_clicks (opts : GestureEngineOptions) (ts : ℝ) (cur : Point) :
    ∀ (hs : List ProcessedHand) (states : Handedness → HandRuntimeState),
      (∀ c ∈ (tapLoop opts ts cur (states, []) hs).2,
          c = ViewportCommand.POINTER_CLICK cur.x cur.y) ∧
        (tapLoop opts ts cur (states, []) hs).2.length ≤ hs.length := by
  intro hs
  induction hs with
  | nil => intro states; simp [tapLoop]
  | cons hand rest ih =>
    intro states
    simp only [tapLoop, List.nil_append]
    rw [tapLoop_cmds_append]
    obtain ⟨ihall, ihlen⟩ := ih (Function.update states hand.handedness
      (tapHand opts ts cur (states hand.handedness) hand).1)
    rcases tapHand_cmds_cases opts ts cur (states hand.handedness) hand with hc | hc <;>
      rw [hc]
    · constructor
      · intro c hm
        simp only [List.nil_append] at hm
        exact ihall c hm
      · simp only [List.nil_append, List.length_cons, List.length_nil,
          List.length_append]
        omega
    · constructor
      · intro c hm
        rcases List.mem_append.mp hm with hm' | hm'
        · simpa using hm'
        · exact ihall c hm'
      · simp only [List.length_append, List.length_cons, List.length_nil]
        omega

theorem tapLoop_states_not_mem (opts : GestureEngineOptions) (ts : ℝ) (cur : Point) :
    ∀ (hs : List ProcessedHand) (states : Handedness → HandRuntimeState)
      (acc : List ViewportCommand) (h : Handedness),
      h ∉ hs.map ProcessedHand.handedness →
      (tapLoop opts ts cur (states, acc) hs).1 h = states h := by
  intro hs
  induction hs with
  | nil => intro states acc h _; rfl
  | cons hand rest ih =>
    intro states acc h hnm
    simp only [List.map_cons, List.mem_cons, not_or] at hnm
    obtain ⟨hne, hnm'⟩ := hnm
    simp only [tapLoop]
    rw [ih _ _ h (by simpa using hnm'), Function.update_noteq hne]

theorem tapLoop_states_mem (opts : GestureEngineOptions) (ts : ℝ) (cur : Point) :
    ∀ (hs : List ProcessedHand) (states : Handedness → HandRuntimeState)
      (acc : List ViewportCommand) (ph : ProcessedHand),
      ph ∈ hs → (hs.map ProcessedHand.handedness).Nodup →
      (tapLoop opts ts cur (states, acc) hs).1 ph.handedness
        = (tapHand opts ts cur (states ph.handedness) ph).1 := by
  intro hs
  induction hs with
  | nil => intro _ _ ph hm; cases hm
  | cons hand rest ih =>
    intro states acc ph hm hnd
    simp only [List.map_cons, List.nodup_cons] at hnd
    obtain ⟨hnotin, hnd'⟩ := hnd
    rcases List.mem_cons.mp hm with rfl | hm'
    · simp only [tapLoop]
      rw [tapLoop_states_not_mem opts ts cur rest _ _ _ hnotin, Function.update_same]
    · have hne : ph.handedness ≠ hand.handedness := by
        intro he
        exact hnotin (he ▸ List.mem_map_of_mem ProcessedHand.handedness hm')
      simp only [tapLoop]
      rw [ih _ _ ph hm' hnd', Function.update_noteq hne]

theorem tapLoop_cmds_mem (opts : GestureEngineOptions) (ts : ℝ) (cur : Point) :
    ∀ (hs : List ProcessedHand) (states : Handedness → HandRuntimeState)
      (acc : List ViewportCommand) (ph : ProcessedHand),
      ph ∈ hs → (hs.map ProcessedHand.handedness).Nodup →
      ∀ c ∈ (tapHand opts ts cur (states ph.handedness) ph).2,
        c ∈ (tapLoop opts ts cur (states, acc) hs).2 := by
  intro hs
  induction hs with
  | nil => intro _ _ ph hm; cases hm
  | cons hand rest ih =>
    intro states acc ph hm hnd c hc
    simp only [List.map_cons, List.nodup_cons] at hnd
    obtain ⟨hnotin, hnd'⟩ := hnd
    rcases List.mem_cons.mp hm with rfl | hm'
    · simp only [tapLoop]
      rw [tapLoop_cmds_append]
      exact List.mem_append.mpr (Or.inl (List.mem_append.mpr (Or.inr hc)))
    · have hne : ph.handedness ≠ hand.handedness := by
        intro he
        exact hnotin (he ▸ List.mem_map_of_mem ProcessedHand.handedness hm')
      simp only [tapLoop]
      refine ih _ _ ph hm' hnd' c ?_
      rw [Function.update_noteq hne]
      exact hc

/-! ## C10: shape of the per-frame command list -/

theorem primaryPhase_cmds (s : EngineState) (a : ProcessedHand) :
    (primaryPhase s a).2.length ≤ 1 ∧
      ∀ c ∈ (primaryPhase s a).2, c.isPointerClick = false := by
  simp only [primaryPhase]
  split
  · split
    · refine ⟨by simp, ?_⟩
      intro c hc
      simp only [List.mem_singleton] at hc
      rw [hc]; rfl
    · simp
  · split
    · split
      · refine ⟨by simp, ?_⟩
        intro c hc
        simp only [List.mem_singleton] at hc
        rw [hc]; rfl
      · simp
    · simp

theorem modePhase_cmds (s : EngineState) (ps : List ProcessedHand) :
    (modePhase s ps).2.length ≤ 1 ∧
      ∀ c ∈ (modePhase s ps).2, c.isPointerClick = false := by
  rcases ps with _ | ⟨a, _ | ⟨b, rest⟩⟩
  · simp [modePhase]
  · exact primaryPhase_cmds s a
  · simp only [modePhase]
    split
    · split
      · split
        · refine ⟨by simp, ?_⟩
          intro c hc
          simp only [List.mem_singleton] at hc
          rw [hc]; rfl
        · simp
      · simp
    · exact primaryPhase_cmds s a

/-- C10: every `update` call returns at most one camera-motion command
(`ROTATE`, `PAN` or `ZOOM`), all `POINTER_CLICK` commands come after it,
and the clicks number at most one per tracked hand. -/
theorem update_commands_shape (s : EngineState) (f : HandFrame) (s1 : EngineState)
    (out : List ViewportCommand) (h : update s f = some (s1, out)) :
    out = out.filter (fun c => !c.isPointerClick) ++
        out.filter (fun c => c.isPointerClick) ∧
      (out.filter (fun c => !c.isPointerClick)).length ≤ 1 ∧
      (out.filter (fun c => c.isPointerClick)).length ≤ f.hands.length := by
  cases hp : processAll s.options f.hands with
  | none => rw [update, hp] at h; exact Option.noConfusion h
  | some ps =>
    cases ps with
    | nil =>
      have h0 : update s f = some ({ s with
          mode := GestureMode.IDLE
          primaryHand := none
          lastZoomDistance := none }, []) := by rw [update, hp]
      rw [h0] at h
      simp only [Option.some.injEq, Prod.mk.injEq] at h
      obtain ⟨-, hout⟩ := h
      rw [← hout]
      simp
    | cons a rest =>
      rw [update_eq_cons s f a rest hp] at h
      simp only [Option.some.injEq, Prod.mk.injEq] at h
      obtain ⟨-, hout⟩ := h
      obtain ⟨hmlen, hmall⟩ := modePhase_cmds s (a :: rest)
      obtain ⟨hkall, hklen⟩ := tapLoop_cmds_all_clicks s.options f.timestamp
        (modePhase s (a :: rest)).1.cursor (a :: rest) (modePhase s (a :: rest)).1.handStates
      have hlen : (a :: rest).length = f.hands.length := by
        have hmap := processAll_map_handedness s.options hp
        calc (a :: rest).length
            = ((a :: rest).map ProcessedHand.handedness).length := (List.length_map _ _).symm
          _ = (f.hands.map TrackedHand.handedness).length := by rw [hmap]
          _ = f.hands.length := List.length_map _ _
      have hm1 : (modePhase s (a :: rest)).2.filter (fun c => !c.isPointerClick)
          = (modePhase s (a :: rest)).2 :=
        List.filter_eq_self.mpr fun c hc => by rw [hmall c hc]; rfl
      have hm2 : (modePhase s (a :: rest)).2.filter (fun c => c.isPointerClick) = [] :=
        List.filter_eq_nil_iff.mpr fun c hc => by simp [hmall c hc]
      have hk1 : ((tapLoop s.options f.timestamp (modePhase s (a :: rest)).1.cursor
          ((modePhase s (a :: rest)).1.handStates, []) (a :: rest)).2).filter
            (fun c => c.isPointerClick)
          = (tapLoop s.options f.timestamp (modePhase s (a :: rest)).1.cursor
              ((modePhase s (a :: rest)).1.handStates, []) (a :: rest)).2 :=
        List.filter_eq_self.mpr fun c hc => by rw [hkall c hc]; rfl
      have hk2 : ((tapLoop s.options f.timestamp (modePhase s (a :: rest)).1.cursor
          ((modePhase s (a :: rest)).1.handStates, []) (a :: rest)).2).filter
            (fun c => !c.isPointerClick) = [] :=
        List.filter_eq_nil_iff.mpr fun c hc => by
          simp [hkall c hc, ViewportCommand.isPointerClick]
      rw [← hout]
      rw [List.filter_append, List.filter_append, hm1, hm2, hk1, hk2]
      refine ⟨by simp, ?_, ?_⟩
      · simpa using hmlen
      · rw [← hlen]
        simpa using hklen

/-! ## Concrete evaluation of `processHand` -/

theorem distance2D_same_y (a b : Landmark) (hy : a.y = b.y) :
    distance2D (some a) (some b) = |a.x - b.x| := by
  simp [distance2D, hy, Real.sqrt_sq_eq_abs]

theorem processHand_eval (opts : GestureEngineOptions) (hand : TrackedHand)
    (t idx mid : Landmark) (c ixy : Point) (bi bm : Bool)
    (h4 : hand.landmarks[4]? = some t) (h8 : hand.landmarks[8]? = some idx)
    (h12 : hand.landmarks[12]? = some mid)
    (hyi : t.y = idx.y) (hym : t.y = mid.y)
    (hc : averageLandmarks hand.landmarks = c)
    (hix : clamp01 idx.x = ixy.x) (hiy : clamp01 idx.y = ixy.y)
    (hbi : decide (|t.x - idx.x| < opts.pinchIndexThreshold) = bi)
    (hbm : decide (|t.x - mid.x| < opts.pinchMiddleThreshold) = bm) :
    processHand opts hand = some ⟨hand.handedness, c, ixy, bi, bm⟩ := by
  simp only [processHand, h4, h8, h12]
  rw [distance2D_same_y t idx hyi, distance2D_same_y t mid hym, hbi, hbm, hc, hix, hiy]

theorem averageLandmarks_openHand : averageLandmarks openHand.landmarks = ⟨1 / 42, 0⟩ := by
  have hl : openHand.landmarks =
      [⟨0, 0⟩, ⟨0, 0⟩, ⟨0, 0⟩, ⟨0, 0⟩, ⟨1 / 2, 0⟩, ⟨0, 0⟩, ⟨0, 0⟩, ⟨0, 0⟩, ⟨0, 0⟩, ⟨0, 0⟩,
        ⟨0, 0⟩, ⟨0, 0⟩, ⟨0, 0⟩, ⟨0, 0⟩, ⟨0, 0⟩, ⟨0, 0⟩, ⟨0, 0⟩, ⟨0, 0⟩, ⟨0, 0⟩, ⟨0, 0⟩,
        ⟨0, 0⟩] := rfl
  rw [hl]
  simp only [averageLandmarks, List.foldl_cons, List.foldl_nil, List.length_cons,
    List.length_nil]
  norm_num [Point.mk.injEq]

theorem averageLandmarks_pinchedHand :
    averageLandmarks pinchedHand.landmarks = ⟨1 / 2, 0⟩ := by
  have hl : pinchedHand.landmarks =
      [⟨1 / 2, 0⟩, ⟨1 / 2, 0⟩, ⟨1 / 2, 0⟩, ⟨1 / 2, 0⟩, ⟨1 / 2, 0⟩, ⟨1 / 2, 0⟩, ⟨1 / 2, 0⟩,
        ⟨1 / 2, 0⟩, ⟨1 / 2, 0⟩, ⟨1 / 2, 0⟩, ⟨1 / 2, 0⟩, ⟨1 / 2, 0⟩, ⟨1 / 2, 0⟩, ⟨1 / 2, 0⟩,
        ⟨1 / 2, 0⟩, ⟨1 / 2, 0⟩, ⟨1 / 2, 0⟩, ⟨1 / 2, 0⟩, ⟨1 / 2, 0⟩, ⟨1 / 2, 0⟩,
        ⟨1 / 2, 0⟩] := rfl
  rw [hl]
  simp only [averageLandmarks, List.foldl_cons, List.foldl_nil, List.length_cons,
    List.length_nil]
  norm_num [Point.mk.injEq]

theorem averageLandmarks_leftPinchedHand :
    averageLandmarks leftPinchedHand.landmarks = ⟨1 / 5, 0⟩ := by
  have hl : leftPinchedHand.landmarks =
      [⟨1 / 5, 0⟩, ⟨1 / 5, 0⟩, ⟨1 / 5, 0⟩, ⟨1 / 5, 0⟩, ⟨1 / 5, 0⟩, ⟨1 / 5, 0⟩, ⟨1 / 5, 0⟩,
        ⟨1 / 5, 0⟩, ⟨1 / 5, 0⟩, ⟨1 / 5, 0⟩, ⟨1 / 5, 0⟩, ⟨1 / 5, 0⟩, ⟨1 / 5, 0⟩, ⟨1 / 5, 0⟩,
        ⟨1 / 5, 0⟩, ⟨1 / 5, 0⟩, ⟨1 / 5, 0⟩, ⟨1 / 5, 0⟩, ⟨1 / 5, 0⟩, ⟨1 / 5, 0⟩,
        ⟨1 / 5, 0⟩] := rfl
  rw [hl]
  simp only [averageLandmarks, List.foldl_cons, List.foldl_nil, List.length_cons,
    List.length_nil]
  norm_num [Point.mk.injEq]

theorem averageLandmarks_leftOpenHand :
    averageLandmarks leftOpenHand.landmarks = ⟨163 / 210, 0⟩ := by
  have hl : leftOpenHand.landmarks =
      [⟨4 / 5, 0⟩, ⟨4 / 5, 0⟩, ⟨4 / 5, 0⟩, ⟨4 / 5, 0⟩, ⟨3 / 10, 0⟩, ⟨4 / 5, 0⟩, ⟨4 / 5, 0⟩,
        ⟨4 / 5, 0⟩, ⟨4 / 5, 0⟩, ⟨4 / 5, 0⟩, ⟨4 / 5, 0⟩, ⟨4 / 5, 0⟩, ⟨4 / 5, 0⟩, ⟨4 / 5, 0⟩,
        ⟨4 / 5, 0⟩, ⟨4 / 5, 0⟩, ⟨4 / 5, 0⟩, ⟨4 / 5, 0⟩, ⟨4 / 5, 0⟩, ⟨4 / 5, 0⟩,
        ⟨4 / 5, 0⟩] := rfl
  rw [hl]
  simp only [averageLandmarks, List.foldl_cons, List.foldl_nil, List.length_cons,
    List.length_nil]
  norm_num [Point.mk.injEq]

theorem averageLandmarks_handC2 : averageLandmarks handC2.landmarks = ⟨1 / 21, 0⟩ := by
  have hl : handC2.landmarks =
      [⟨0, 0⟩, ⟨0, 0⟩, ⟨0, 0⟩, ⟨0, 0⟩, ⟨0, 0⟩, ⟨0, 0⟩, ⟨0, 0⟩, ⟨0, 0⟩, ⟨1, 0⟩, ⟨0, 0⟩,
        ⟨0, 0⟩, ⟨0, 0⟩, ⟨0, 0⟩, ⟨0, 0⟩, ⟨0, 0⟩, ⟨0, 0⟩, ⟨0, 0⟩, ⟨0, 0⟩, ⟨0, 0⟩, ⟨0, 0⟩,
        ⟨0, 0⟩] := rfl
  rw [hl]
  simp only [averageLandmarks, List.foldl_cons, List.foldl_nil, List.length_cons,
    List.length_nil]
  norm_num [Point.mk.injEq]

theorem processHand_openHand : processHand DEFAULTS openHand = some phOpen :=
  processHand_eval DEFAULTS openHand ⟨1 / 2, 0⟩ ⟨0, 0⟩ ⟨0, 0⟩ ⟨1 / 42, 0⟩ ⟨0, 0⟩ false false
    rfl rfl rfl rfl rfl averageLandmarks_openHand
    (by norm_num [clamp01]) (by norm_num [clamp01])
    (by rw [show |(1 / 2 : ℝ) - 0| = 1 / 2 by
        rw [abs_of_nonneg (by norm_num : (0 : ℝ) ≤ 1 / 2 - 0)]; norm_num]
        exact decide_eq_false (by norm_num [DEFAULTS]))
    (by rw [show |(1 / 2 : ℝ) - 0| = 1 / 2 by
        rw [abs_of_nonneg (by norm_num : (0 : ℝ) ≤ 1 / 2 - 0)]; norm_num]
        exact decide_eq_false (by norm_num [DEFAULTS]))

theorem processHand_pinchedHand : processHand DEFAULTS pinchedHand = some phPinched :=
  processHand_eval DEFAULTS pinchedHand ⟨1 / 2, 0⟩ ⟨1 / 2, 0⟩ ⟨1 / 2, 0⟩ ⟨1 / 2, 0⟩
    ⟨1 / 2, 0⟩ true true rfl rfl rfl rfl rfl averageLandmarks_pinchedHand
    (by norm_num [clamp01]) (by norm_num [clamp01])
    (by rw [show |(1 / 2 : ℝ) - 1 / 2| = 0 by norm_num]
        exact decide_eq_true (by norm_num [DEFAULTS]))
    (by rw [show |(1 / 2 : ℝ) - 1 / 2| = 0 by norm_num]
        exact decide_eq_true (by norm_num [DEFAULTS]))

theorem processHand_leftPinchedHand :
    processHand DEFAULTS leftPinchedHand = some phLeftPinched :=
  processHand_eval DEFAULTS leftPinchedHand ⟨1 / 5, 0⟩ ⟨1 / 5, 0⟩ ⟨1 / 5, 0⟩ ⟨1 / 5, 0⟩
    ⟨1 / 5, 0⟩ true true rfl rfl rfl rfl rfl averageLandmarks_leftPinchedHand
    (by norm_num [clamp01]) (by norm_num [clamp01])
    (by rw [show |(1 / 5 : ℝ) - 1 / 5| = 0 by norm_num]
        exact decide_eq_true (by norm_num [DEFAULTS]))
    (by rw [show |(1 / 5 : ℝ) - 1 / 5| = 0 by norm_num]
        exact decide_eq_true (by norm_num [DEFAULTS]))

theorem processHand_leftOpenHand : processHand DEFAULTS leftOpenHand = some phLeftOpen :=
  processHand_eval DEFAULTS leftOpenHand ⟨3 / 10, 0⟩ ⟨4 / 5, 0⟩ ⟨4 / 5, 0⟩ ⟨163 / 210, 0⟩
    ⟨4 / 5, 0⟩ false false rfl rfl rfl rfl rfl averageLandmarks_leftOpenHand
    (by norm_num [clamp01]) (by norm_num [clamp01])
    (by rw [show |(3 / 10 : ℝ) - 4 / 5| = 1 / 2 by
        rw [abs_of_nonpos (by norm_num : (3 / 10 : ℝ) - 4 / 5 ≤ 0)]; norm_num]
        exact decide_eq_false (by norm_num [DEFAULTS]))
    (by rw [show |(3 / 10 : ℝ) - 4 / 5| = 1 / 2 by
        rw [abs_of_nonpos (by norm_num : (3 / 10 : ℝ) - 4 / 5 ≤ 0)]; norm_num]
        exact decide_eq_false (by norm_num [DEFAULTS]))

theorem processHand_handC2 : processHand DEFAULTS handC2 = some phC2 :=
  processHand_eval DEFAULTS handC2 ⟨0, 0⟩ ⟨1, 0⟩ ⟨0, 0⟩ ⟨1 / 21, 0⟩ ⟨1, 0⟩ false true
    rfl rfl rfl rfl rfl averageLandmarks_handC2
    (by norm_num [clamp01]) (by norm_num [clamp01])
    (by rw [show |(0 : ℝ) - 1| = 1 by
        rw [abs_of_nonpos (by norm_num : (0 : ℝ) - 1 ≤ 0)]; norm_num]
        exact decide_eq_false (by norm_num [DEFAULTS]))
    (by rw [show |(0 : ℝ) - 0| = 0 by norm_num]
        exact decide_eq_true (by norm_num [DEFAULTS]))

/-! ## C2: the hand-center formula -/

theorem specPalmCenter_handC2 : specPalmCenter handC2 = ⟨0, 0⟩ := by
  have h0 : handC2.landmarks[0]? = some ⟨0, 0⟩ := rfl
  have h5 : handC2.landmarks[5]? = some ⟨0, 0⟩ := rfl
  have h9 : handC2.landmarks[9]? = some ⟨0, 0⟩ := rfl
  have h13 : handC2.landmarks[13]? = some ⟨0, 0⟩ := rfl
  have h17 : handC2.landmarks[17]? = some ⟨0, 0⟩ := rfl
  simp only [specPalmCenter, List.map_cons, List.map_nil, h0, h5, h9, h13, h17]
  norm_num [Point.mk.injEq]

/-- C2 counterexample: on `handC2` the center computed by `processHand` is
`(1/21, 0)` — the mean of all 21 landmarks — while the spec's palm-landmark
mean over indices {0,5,9,13,17} is `(0,0)`; the two disagree, so the
hand-center used for rotate/pan deltas and two-hand zoom is not the
5-landmark palm mean. -/
theorem center_not_palm_mean :
    (processHand DEFAULTS handC2).map ProcessedHand.center = some ⟨1 / 21, 0⟩ ∧
      specPalmCenter handC2 = ⟨0, 0⟩ ∧
      (⟨1 / 21, 0⟩ : Point) ≠ (⟨0, 0⟩ : Point) :=
  ⟨by rw [processHand_handC2]; rfl, specPalmCenter_handC2,
    fun h => by
      have hx : (1 / 21 : ℝ) = 0 := congrArg Point.x h
      norm_num at hx⟩

theorem foldl_point_sum (l : List Landmark) : ∀ p : Point,
    l.foldl (fun acc lm => Point.mk (acc.x + lm.x) (acc.y + lm.y)) p
      = ⟨p.x + (l.map Landmark.x).sum, p.y + (l.map Landmark.y).sum⟩ := by
  induction l with
  | nil => intro p; simp
  | cons a t ih =>
    intro p
    simp only [List.foldl_cons, List.map_cons, List.sum_cons, ih]
    simp only [Point.mk.injEq]
    constructor <;> ring

/-- C2 amended: the hand-center computed by `processHand` is the mean of
ALL of the hand's landmarks (not just the palm/knuckle subset): each
coordinate is the coordinate sum over the whole landmark list divided by
its length. -/
theorem center_mean_of_all_landmarks (opts : GestureEngineOptions) (hand : TrackedHand)
    (ph : ProcessedHand) (h : processHand opts hand = some ph)
    (hne : hand.landmarks ≠ []) :
    ph.center.x = (hand.landmarks.map Landmark.x).sum / hand.landmarks.length ∧
      ph.center.y = (hand.landmarks.map Landmark.y).sum / hand.landmarks.length := by
  have hc : ph.center = averageLandmarks hand.landmarks := by
    cases hg : hand.landmarks[8]? with
    | none =>
      simp only [processHand, hg] at h
      exact Option.noConfusion h
    | some it =>
      simp only [processHand, hg, Option.some.injEq] at h
      rw [← h]
  rw [hc]
  cases hl : hand.landmarks with
  | nil => exact absurd hl hne
  | cons a t =>
    simp only [averageLandmarks, foldl_point_sum]
    constructor <;> simp

/-- Concrete instance of `center_mean_of_all_landmarks` on `handC2`. -/
theorem center_mean_of_all_landmarks_witness :
    processHand DEFAULTS handC2 = some phC2 ∧ handC2.landmarks ≠ [] ∧
      (phC2.center.x = (handC2.landmarks.map Landmark.x).sum / handC2.landmarks.length ∧
        phC2.center.y = (handC2.landmarks.map Landmark.y).sum / handC2.landmarks.length) :=
  ⟨processHand_handC2,
    List.ne_nil_of_length_pos (by rw [show handC2.landmarks.length = 21 from rfl]; norm_num),
    center_mean_of_all_landmarks DEFAULTS handC2 phC2 processHand_handC2
      (List.ne_nil_of_length_pos
        (by rw [show handC2.landmarks.length = 21 from rfl]; norm_num))⟩

/-! ## Options preservation and the stored `lastCenter` -/

theorem primaryPhase_options (s : EngineState) (a : ProcessedHand) :
    (primaryPhase s a).1.options = s.options := by
  simp only [primaryPhase]
  split
  · rfl
  · split <;> rfl

theorem modePhase_options (s : EngineState) (ps : List ProcessedHand) :
    (modePhase s ps).1.options = s.options := by
  rcases ps with _ | ⟨a, _ | ⟨b, rest⟩⟩
  · rfl
  · exact primaryPhase_options s a
  · simp only [modePhase]
    split
    · rfl
    · exact primaryPhase_options s a

theorem update_options (s : EngineState) (f : HandFrame) (s1 : EngineState)
    (out : List ViewportCommand) (h : update s f = some (s1, out)) :
    s1.options = s.options := by
  cases hp : processAll s.options f.hands with
  | none => rw [update, hp] at h; exact Option.noConfusion h
  | some ps =>
    cases ps with
    | nil =>
      have h0 : update s f = some ({ s with
          mode := GestureMode.IDLE
          primaryHand := none
          lastZoomDistance := none }, []) := by rw [update, hp]
      rw [h0] at h
      simp only [Option.some.injEq, Prod.mk.injEq] at h
      obtain ⟨hs1, -⟩ := h
      rw [← hs1]
    | cons a rest =>
      rw [update_eq_cons s f a rest hp] at h
      simp only [Option.some.injEq, Prod.mk.injEq] at h
      obtain ⟨hs1, -⟩ := h
      rw [← hs1]
      exact modePhase_options s (a :: rest)

/-- C5 amended: after an update whose single tracked hand is not pinching
(CURSOR mode), the stored `lastCenter` for that handedness is NOT cleared:
the tap loop's final per-hand write overwrites the CURSOR branch's clear
with the hand's current center, so a pinch on the next frame computes its
delta against that stored center (a command is then emitted iff the scaled
motion since this frame clears the deadzone). -/
theorem cursor_frame_stores_center (s : EngineState) (f : HandFrame)
    (hand : TrackedHand) (ph : ProcessedHand) (hf : f.hands = [hand])
    (hph : processHand s.options hand = some ph) (_hpi : ph.pinchIndex = false) :
    ((stepState s f).handStates ph.handedness).lastCenter = some ph.center := by
  have hp : processAll s.options f.hands = some [ph] := by
    rw [hf, processAll, hph, processAll]
  rw [stepState, update_eq_cons s f ph [] hp]
  show ((tapLoop s.options f.timestamp (modePhase s [ph]).1.cursor
      ((modePhase s [ph]).1.handStates, []) [ph]).1 ph.handedness).lastCenter = _
  rw [tapLoop_states_mem s.options f.timestamp (modePhase s [ph]).1.cursor [ph]
    (modePhase s [ph]).1.handStates [] ph (List.mem_singleton_self ph) (by simp)]
  exact tapHand_lastCenter _ _ _ _ _

/-- Concrete instance of `cursor_frame_stores_center`: the open hand of
`openFrame`. -/
theorem cursor_frame_stores_center_witness :
    openFrame.hands = [openHand] ∧ processHand DEFAULTS openHand = some phOpen ∧
      phOpen.pinchIndex = false ∧
      ((stepState (initialEngine DEFAULTS) openFrame).handStates
          phOpen.handedness).lastCenter = some phOpen.center :=
  ⟨rfl, processHand_openHand, rfl,
    cursor_frame_stores_center (initialEngine DEFAULTS) openFrame openHand phOpen rfl
      processHand_openHand rfl⟩

/-! ## C9: idempotence under an identical frame -/

theorem scaleAndDeadzone_self (c : Point) (sens dz : ℝ) (h : 0 < dz) :
    scaleAndDeadzone (deltaFromLast c (some c)) sens dz = none := by
  simp [deltaFromLast, scaleAndDeadzone, sub_self, h]

theorem modePhase_zoom_lastZoomDistance (s : EngineState) (a b : ProcessedHand)
    (rest : List ProcessedHand)
    (hall : ((a :: b :: rest).all fun h => h.pinchIndex) = true) :
    (modePhase s (a :: b :: rest)).1.lastZoomDistance = some (handDistance a b) := by
  simp only [modePhase]
  rw [if_pos hall]

theorem modePhase_zoom_cmds_of_baseline (s1 : EngineState) (a b : ProcessedHand)
    (rest : List ProcessedHand)
    (hall : ((a :: b :: rest).all fun h => h.pinchIndex) = true)
    (hbase : s1.lastZoomDistance = some (handDistance a b))
    (hzoom : 0 < s1.options.zoomDeadzone) :
    (modePhase s1 (a :: b :: rest)).2 = [] := by
  simp only [modePhase]
  rw [if_pos hall, hbase]
  show (if |(handDistance a b - handDistance a b) * s1.options.zoomSensitivity| >
      s1.options.zoomDeadzone then [ViewportCommand.ZOOM _] else []) = []
  rw [if_neg (by rw [sub_self, zero_mul, abs_zero]; exact not_lt.mpr hzoom.le)]

theorem primaryPhase_cmds_of_self (s1 : EngineState) (a : ProcessedHand)
    (hlast : (s1.handStates a.handedness).lastCenter = some a.center)
    (hmove : 0 < s1.options.moveDeadzone) :
    (primaryPhase s1 a).2 = [] := by
  simp only [primaryPhase]
  split
  · have h1 := scaleAndDeadzone_self a.center s1.options.panSensitivity
      s1.options.moveDeadzone hmove
    simp [hlast, h1]
  · split
    · have h1 := scaleAndDeadzone_self a.center s1.options.rotationSensitivity
        s1.options.moveDeadzone hmove
      simp [hlast, h1]
    · rfl

/-- C9 amended: for a `GestureEngine` with positive move and zoom
deadzones and a frame whose hands carry pairwise-distinct handedness
labels, a second `update` with the identical frame emits only
`POINTER_CLICK` commands — no ROTATE, PAN or ZOOM (all deltas are zero
and fall below the positive deadzones).  For a frame carrying two hands
with the same handedness label the original claim fails, see the
counterexample. -/
theorem identical_frame_emits_no_motion (s : EngineState) (f : HandFrame)
    (hmove : 0 < s.options.moveDeadzone) (hzoom : 0 < s.options.zoomDeadzone)
    (hnd : (f.hands.map TrackedHand.handedness).Nodup)
    (s1 : EngineState) (out1 : List ViewportCommand)
    (h1 : update s f = some (s1, out1))
    (s2 : EngineState) (out2 : List ViewportCommand)
    (h2 : update s1 f = some (s2, out2)) :
    ∀ c ∈ out2, c.isPointerClick = true := by
  have hopts : s1.options = s.options := update_options s f s1 out1 h1
  cases hp : processAll s.options f.hands with
  | none => rw [update, hp] at h1; exact Option.noConfusion h1
  | some ps =>
    have hp2 : processAll s1.options f.hands = some ps := by rw [hopts]; exact hp
    cases ps with
    | nil =>
      have h0 : update s1 f = some ({ s1 with
          mode := GestureMode.IDLE
          primaryHand := none
          lastZoomDistance := none }, []) := by rw [update, hp2]
      rw [h0] at h2
      simp only [Option.some.injEq, Prod.mk.injEq] at h2
      obtain ⟨-, hout2⟩ := h2
      rw [← hout2]
      intro c hc
      exact absurd hc (List.not_mem_nil c)
    | cons a rest =>
      have hndps : ((a :: rest).map ProcessedHand.handedness).Nodup := by
        rw [processAll_map_handedness s.options hp]
        exact hnd
      rw [update_eq_cons s f a rest hp] at h1
      simp only [Option.some.injEq, Prod.mk.injEq] at h1
      obtain ⟨hs1, -⟩ := h1
      have hlastA : (s1.handStates a.handedness).lastCenter = some a.center := by
        rw [← hs1]
        show ((tapLoop s.options f.timestamp (modePhase s (a :: rest)).1.cursor
          ((modePhase s (a :: rest)).1.handStates, []) (a :: rest)).1 a.handedness).lastCenter
          = _
        rw [tapLoop_states_mem s.options f.timestamp _ (a :: rest) _ [] a
          (List.mem_cons_self a rest) hndps]
        exact tapHand_lastCenter _ _ _ _ _
      rw [update_eq_cons s1 f a rest hp2] at h2
      simp only [Option.some.injEq, Prod.mk.injEq] at h2
      obtain ⟨-, hout2⟩ := h2
      have hmove1 : 0 < s1.options.moveDeadzone := by rw [hopts]; exact hmove
      have hzoom1 : 0 < s1.options.zoomDeadzone := by rw [hopts]; exact hzoom
      have hmode : (modePhase s1 (a :: rest)).2 = [] := by
        rcases rest with _ | ⟨b, rest2⟩
        · exact primaryPhase_cmds_of_self s1 a hlastA hmove1
        · by_cases hall : ((a :: b :: rest2).all fun h => h.pinchIndex) = true
          · have hbase : s1.lastZoomDistance = some (handDistance a b) := by
              rw [← hs1]
              show (modePhase s (a :: b :: rest2)).1.lastZoomDistance = _
              exact modePhase_zoom_lastZoomDistance s a b rest2 hall
            exact modePhase_zoom_cmds_of_baseline s1 a b rest2 hall hbase hzoom1
          · have heq : (modePhase s1 (a :: b :: rest2)).2 = (primaryPhase s1 a).2 := by
              simp only [modePhase]
              rw [if_neg hall]
            rw [heq]
            exact primaryPhase_cmds_of_self s1 a hlastA hmove1
      intro c hc
      rw [← hout2, hmode, List.nil_append] at hc
      obtain ⟨hall2, -⟩ := tapLoop_cmds_all_clicks s1.options f.timestamp
        (modePhase s1 (a :: rest)).1.cursor (a :: rest)
        (modePhase s1 (a :: rest)).1.handStates
      rw [hall2 c hc]
      rfl

/-! ## Concrete evaluation of whole `update` calls -/

theorem processAll_openFrame : processAll DEFAULTS [openHand] = some [phOpen] := by
  rw [processAll, processHand_openHand, processAll]

/-- First concrete update of the C5/C9 scenario: the open (non-pinching)
hand puts the engine in CURSOR mode, emits nothing, and — although the
CURSOR branch cleared `lastCenter` — the tap loop stores the hand's
center. -/
theorem update_openFrame :
    update (initialEngine DEFAULTS) openFrame = some (stateAfterOpen, []) := by
  have hp : processAll (initialEngine DEFAULTS).options openFrame.hands
      = some [phOpen] := processAll_openFrame
  rw [update_eq_cons (initialEngine DEFAULTS) openFrame phOpen [] hp]
  have key : (tapLoop (initialEngine DEFAULTS).options openFrame.timestamp
      (modePhase (initialEngine DEFAULTS) [phOpen]).1.cursor
      ((modePhase (initialEngine DEFAULTS) [phOpen]).1.handStates, []) [phOpen]).1
      = stateAfterOpen.handStates := by
    show Function.update (Function.update (fun _ => freshHandState) Handedness.Right
        { pinchIndexActive := false
          pinchMiddleActive := false
          pinchStartTime := none
          lastCenter := none })
        Handedness.Right
        { pinchIndexActive := false
          pinchMiddleActive := false
          pinchStartTime := none
          lastCenter := some ⟨1 / 42, 0⟩ } = _
    rw [Function.update_idem]
    rfl
  rw [key]
  rfl

/-- Updating with the identical open-hand frame again reproduces the same
state and emits nothing. -/
theorem update_openFrame_again :
    update stateAfterOpen openFrame = some (stateAfterOpen, []) := by
  have hp : processAll stateAfterOpen.options openFrame.hands
      = some [phOpen] := processAll_openFrame
  rw [update_eq_cons stateAfterOpen openFrame phOpen [] hp]
  have key : (tapLoop stateAfterOpen.options openFrame.timestamp
      (modePhase stateAfterOpen [phOpen]).1.cursor
      ((modePhase stateAfterOpen [phOpen]).1.handStates, []) [phOpen]).1
      = stateAfterOpen.handStates := by
    show Function.update (Function.update (Function.update (fun _ => freshHandState)
        Handedness.Right
        { pinchIndexActive := false
          pinchMiddleActive := false
          pinchStartTime := none
          lastCenter := some ⟨1 / 42, 0⟩ })
        Handedness.Right
        { pinchIndexActive := false
          pinchMiddleActive := false
          pinchStartTime := none
          lastCenter := none })
        Handedness.Right
        { pinchIndexActive := false
          pinchMiddleActive := false
          pinchStartTime := none
          lastCenter := some ⟨1 / 42, 0⟩ } = _
    rw [Function.update_idem, Function.update_idem]
    rfl
  rw [key]
  rfl

theorem processAll_pinchedFrame : processAll DEFAULTS [pinchedHand] = some [phPinched] := by
  rw [processAll, processHand_pinchedHand, processAll]

/-- Second concrete update of the C5 scenario: the first pinching frame
after the CURSOR frame emits a PAN command driven by the stale delta
`center − storedLastCenter = (1/2 − 1/42, 0)`, scaled by the default pan
sensitivity 100. -/
theorem update_pinchedFrame_cmds :
    stepCmds stateAfterOpen pinchedFrame = [ViewportCommand.PAN (1000 / 21) 0] := by
  have hp : processAll stateAfterOpen.options pinchedFrame.hands
      = some [phPinched] := processAll_pinchedFrame
  rw [stepCmds, update_eq_cons stateAfterOpen pinchedFrame phPinched [] hp]
  have hsd : scaleAndDeadzone (deltaFromLast (⟨1 / 2, 0⟩ : Point) (some ⟨1 / 42, 0⟩))
      (100 : ℝ) (15 / 10000 : ℝ) = some (1000 / 21, 0) := by
    rw [scaleAndDeadzone]
    rw [if_neg (by
      show ¬ |((1 : ℝ) / 2 - 1 / 42) * 100| + |((0 : ℝ) - 0) * 100| < 15 / 10000
      rw [abs_of_nonneg (by norm_num : (0 : ℝ) ≤ (1 / 2 - 1 / 42) * 100),
        abs_of_nonneg (by norm_num : (0 : ℝ) ≤ ((0 : ℝ) - 0) * 100)]
      norm_num)]
    norm_num [deltaFromLast, Prod.ext_iff]
  show (match scaleAndDeadzone (deltaFromLast (⟨1 / 2, 0⟩ : Point) (some ⟨1 / 42, 0⟩))
      (100 : ℝ) (15 / 10000 : ℝ) with
    | some sc => [ViewportCommand.PAN sc.1 sc.2]
    | none => ([] : List ViewportCommand)) ++ ([] : List ViewportCommand)
    = [ViewportCommand.PAN (1000 / 21) 0]
  rw [hsd]
  rfl

theorem processAll_twoLeftFrame :
    processAll DEFAULTS [leftPinchedHand, leftOpenHand]
      = some [phLeftPinched, phLeftOpen] := by
  rw [processAll, processHand_leftPinchedHand, processAll, processHand_leftOpenHand,
    processAll]

/-- First update of the C9 counterexample: both left-labelled hands are
processed; the primary (pinching) hand starts a PAN with zero delta (no
command), and the second, non-pinching hand — reading the runtime state
the first hand just wrote — fires a falling-edge POINTER_CLICK and
overwrites `lastCenter` with its own center. -/
theorem update_twoLeftFrame :
    update (initialEngine DEFAULTS) twoLeftFrame
      = some (stateAfterTwoLeft, [ViewportCommand.POINTER_CLICK (1 / 5) 0]) := by
  have hp : processAll (initialEngine DEFAULTS).options twoLeftFrame.hands
      = some [phLeftPinched, phLeftOpen] := processAll_twoLeftFrame
  rw [update_eq_cons (initialEngine DEFAULTS) twoLeftFrame phLeftPinched [phLeftOpen] hp]
  refine congrArg some (Prod.ext ?_ ?_)
  · have key : (tapLoop (initialEngine DEFAULTS).options twoLeftFrame.timestamp
        (modePhase (initialEngine DEFAULTS) [phLeftPinched, phLeftOpen]).1.cursor
        ((modePhase (initialEngine DEFAULTS) [phLeftPinched, phLeftOpen]).1.handStates, [])
        [phLeftPinched, phLeftOpen]).1
        = stateAfterTwoLeft.handStates := by
      show Function.update (Function.update (Function.update (fun _ => freshHandState)
          Handedness.Left
          { pinchIndexActive := false
            pinchMiddleActive := false
            pinchStartTime := none
            lastCenter := some ⟨1 / 5, 0⟩ })
          Handedness.Left
          { pinchIndexActive := true
            pinchMiddleActive := true
            pinchStartTime := some 0
            lastCenter := some ⟨1 / 5, 0⟩ })
          Handedness.Left
          { pinchIndexActive := false
            pinchMiddleActive := false
            pinchStartTime := none
            lastCenter := some ⟨163 / 210, 0⟩ } = _
      rw [Function.update_idem, Function.update_idem]
      rfl
    rw [key]
    rfl
  · have hsd : scaleAndDeadzone (deltaFromLast (⟨1 / 5, 0⟩ : Point) none)
        (100 : ℝ) (15 / 10000 : ℝ) = none := by
      rw [scaleAndDeadzone]
      rw [if_pos (by
        show |(0 : ℝ) * 100| + |(0 : ℝ) * 100| < 15 / 10000
        norm_num)]
    show (match scaleAndDeadzone (deltaFromLast (⟨1 / 5, 0⟩ : Point) none)
        (100 : ℝ) (15 / 10000 : ℝ) with
      | some sc => [ViewportCommand.PAN sc.1 sc.2]
      | none => ([] : List ViewportCommand)) ++
        (if decide ((0 : ℝ) - 0 ≤ (220 : ℝ)) && !false then
          [ViewportCommand.POINTER_CLICK (1 / 5 : ℝ) (0 : ℝ)] else [])
      = [ViewportCommand.POINTER_CLICK (1 / 5) 0]
    rw [hsd, show decide ((0 : ℝ) - 0 ≤ (220 : ℝ)) = true from
      decide_eq_true (by norm_num)]
    rfl

/-- Second update of the C9 counterexample: repeating the identical
`twoLeftFrame` emits a PAN with the stale delta between the two same-key
hands' centers, `(1/5 - 163/210) * 100 = -1210/21`. -/
theorem update_twoLeftFrame_again_cmds :
    stepCmds stateAfterTwoLeft twoLeftFrame
      = [ViewportCommand.PAN (-1210 / 21) 0,
          ViewportCommand.POINTER_CLICK (1 / 5) 0] := by
  have hp : processAll stateAfterTwoLeft.options twoLeftFrame.hands
      = some [phLeftPinched, phLeftOpen] := processAll_twoLeftFrame
  rw [stepCmds, update_eq_cons stateAfterTwoLeft twoLeftFrame phLeftPinched
    [phLeftOpen] hp]
  have hsd : scaleAndDeadzone (deltaFromLast (⟨1 / 5, 0⟩ : Point) (some ⟨163 / 210, 0⟩))
      (100 : ℝ) (15 / 10000 : ℝ) = some (-1210 / 21, 0) := by
    rw [scaleAndDeadzone]
    rw [if_neg (by
      show ¬ |((1 : ℝ) / 5 - 163 / 210) * 100| + |((0 : ℝ) - 0) * 100| < 15 / 10000
      rw [abs_of_nonpos (by norm_num : ((1 : ℝ) / 5 - 163 / 210) * 100 ≤ 0),
        abs_of_nonneg (by norm_num : (0 : ℝ) ≤ ((0 : ℝ) - 0) * 100)]
      norm_num)]
    norm_num [deltaFromLast, Prod.ext_iff]
  show (match scaleAndDeadzone (deltaFromLast (⟨1 / 5, 0⟩ : Point) (some ⟨163 / 210, 0⟩))
      (100 : ℝ) (15 / 10000 : ℝ) with
    | some sc => [ViewportCommand.PAN sc.1 sc.2]
    | none => ([] : List ViewportCommand)) ++
      (if decide ((0 : ℝ) - 0 ≤ (220 : ℝ)) && !false then
        [ViewportCommand.POINTER_CLICK (1 / 5 : ℝ) (0 : ℝ)] else [])
    = [ViewportCommand.PAN (-1210 / 21) 0, ViewportCommand.POINTER_CLICK (1 / 5) 0]
  rw [hsd, show decide ((0 : ℝ) - 0 ≤ (220 : ℝ)) = true from decide_eq_true (by norm_num)]
  rfl

/-- Concrete update for the C8 witness: from the primed state, the open
hand closes a quick pinch; a POINTER_CLICK at the engine cursor is
emitted and the stored `pinchStartTime` is cleared. -/
theorem update_primedEngine :
    update primedEngine openFrame
      = some (stateAfterOpen, [ViewportCommand.POINTER_CLICK 0 0]) := by
  have hp : processAll primedEngine.options openFrame.hands = some [phOpen] :=
    processAll_openFrame
  rw [update_eq_cons primedEngine openFrame phOpen [] hp]
  refine congrArg some (Prod.ext ?_ ?_)
  · have key : (tapLoop primedEngine.options openFrame.timestamp
        (modePhase primedEngine [phOpen]).1.cursor
        ((modePhase primedEngine [phOpen]).1.handStates, []) [phOpen]).1
        = stateAfterOpen.handStates := by
      show Function.update (Function.update (Function.update (fun _ => freshHandState)
          Handedness.Right
          { pinchIndexActive := true
            pinchMiddleActive := false
            pinchStartTime := some 0
            lastCenter := some ⟨1 / 42, 0⟩ })
          Handedness.Right
          { pinchIndexActive := true
            pinchMiddleActive := false
            pinchStartTime := some 0
            lastCenter := none })
          Handedness.Right
          { pinchIndexActive := false
            pinchMiddleActive := false
            pinchStartTime := none
            lastCenter := some ⟨1 / 42, 0⟩ } = _
      rw [Function.update_idem, Function.update_idem]
      rfl
    rw [key]
    rfl
  · show ([] : List ViewportCommand) ++
      (if decide ((0 : ℝ) - 0 ≤ (220 : ℝ)) && !false then
        [ViewportCommand.POINTER_CLICK (0 : ℝ) (0 : ℝ)] else [])
      = [ViewportCommand.POINTER_CLICK 0 0]
    rw [show decide ((0 : ℝ) - 0 ≤ (220 : ℝ)) = true from decide_eq_true (by norm_num)]
    rfl

/-- C5 counterexample: after the CURSOR-mode update on `openFrame` the
stored `lastCenter` of the right hand is `(1/42, 0)` — not cleared — and
the immediately following first pinch frame emits `PAN{1000/21, 0}` from
the stale delta, with the default (positive) `moveDeadzone`. -/
theorem cursor_clear_counterexample :
    ((stepState (initialEngine DEFAULTS) openFrame).handStates
        Handedness.Right).lastCenter = some ⟨1 / 42, 0⟩ ∧
      stepCmds (stepState (initialEngine DEFAULTS) openFrame) pinchedFrame
        = [ViewportCommand.PAN (1000 / 21) 0] := by
  have h1 : stepState (initialEngine DEFAULTS) openFrame = stateAfterOpen := by
    rw [stepState, update_openFrame]
  rw [h1]
  exact ⟨rfl, update_pinchedFrame_cmds⟩

/-- C9 counterexample: with the default options (positive deadzones) and
the well-typed frame `twoLeftFrame` whose two hands share the `Left`
handedness key, repeating the identical frame after a baseline update
emits a PAN command, so `update` is not motion-idempotent for every
`HandFrame`. -/
theorem identical_frame_counterexample :
    0 < DEFAULTS.moveDeadzone ∧ 0 < DEFAULTS.zoomDeadzone ∧
      stepCmds (stepState (initialEngine DEFAULTS) twoLeftFrame) twoLeftFrame
        = [ViewportCommand.PAN (-1210 / 21) 0,
            ViewportCommand.POINTER_CLICK (1 / 5) 0] := by
  refine ⟨by norm_num [DEFAULTS], by norm_num [DEFAULTS], ?_⟩
  have h1 : stepState (initialEngine DEFAULTS) twoLeftFrame = stateAfterTwoLeft := by
    rw [stepState, update_twoLeftFrame]
  rw [h1, update_twoLeftFrame_again_cmds]

/-! ## C8: quick pinch release emits a POINTER_CLICK at the cursor -/

theorem primaryPhase_handStates_pinch (s : EngineState) (a : ProcessedHand)
    (h : Handedness) :
    ((primaryPhase s a).1.handStates h).pinchIndexActive
        = (s.handStates h).pinchIndexActive ∧
      ((primaryPhase s a).1.handStates h).pinchStartTime
        = (s.handStates h).pinchStartTime := by
  have key : ∀ v : Option Point,
      ((Function.update s.handStates a.handedness
          { s.handStates a.handedness with lastCenter := v }) h).pinchIndexActive
          = (s.handStates h).pinchIndexActive ∧
        ((Function.update s.handStates a.handedness
          { s.handStates a.handedness with lastCenter := v }) h).pinchStartTime
          = (s.handStates h).pinchStartTime := by
    intro v
    rcases eq_or_ne h a.handedness with rfl | hne
    · rw [Function.update_same]
      exact ⟨rfl, rfl⟩
    · rw [Function.update_noteq hne]
      exact ⟨rfl, rfl⟩
  simp only [primaryPhase]
  split
  · exact key (some a.center)
  · split
    · exact key (some a.center)
    · exact key none

theorem modePhase_handStates_pinch (s : EngineState) (ps : List ProcessedHand)
    (h : Handedness) :
    ((modePhase s ps).1.handStates h).pinchIndexActive
        = (s.handStates h).pinchIndexActive ∧
      ((modePhase s ps).1.handStates h).pinchStartTime
        = (s.handStates h).pinchStartTime := by
  rcases ps with _ | ⟨a, _ | ⟨b, rest⟩⟩
  · exact ⟨rfl, rfl⟩
  · exact primaryPhase_handStates_pinch s a h
  · simp only [modePhase]
    split
    · exact ⟨rfl, rfl⟩
    · exact primaryPhase_handStates_pinch s a h

/-- C8: on the falling edge of a tracked hand's index pinch — the stored
state says the pinch was active with a recorded `pinchStartTime`, the hand
no longer index-pinches and is not middle-pinching, and the pinch lasted
at most `tapMaxDurationMs` — `update` emits a `POINTER_CLICK` carrying the
engine's current (just-updated) cursor, not necessarily that hand's own
position, and clears the stored `pinchStartTime`.  Stated for frames whose
hands carry pairwise-distinct handedness keys (the tracked-hand model). -/
theorem quick_release_emits_click (s : EngineState) (f : HandFrame) (hand : TrackedHand)
    (ph : ProcessedHand) (t0 : ℝ) (s1 : EngineState) (out : List ViewportCommand)
    (hupd : update s f = some (s1, out))
    (hmem : hand ∈ f.hands)
    (hph : processHand s.options hand = some ph)
    (hnd : (f.hands.map TrackedHand.handedness).Nodup)
    (hactive : (s.handStates ph.handedness).pinchIndexActive = true)
    (hstart : (s.handStates ph.handedness).pinchStartTime = some t0)
    (hpi : ph.pinchIndex = false)
    (hpm : ph.pinchMiddle = false)
    (hdur : f.timestamp - t0 ≤ s.options.tapMaxDurationMs) :
    ViewportCommand.POINTER_CLICK s1.cursor.x s1.cursor.y ∈ out ∧
      (s1.handStates ph.handedness).pinchStartTime = none := by
  cases hp : processAll s.options f.hands with
  | none => rw [update, hp] at hupd; exact Option.noConfusion hupd
  | some ps =>
    cases ps with
    | nil =>
      exact absurd (processAll_mem_of_mem s.options hp hmem hph) (List.not_mem_nil ph)
    | cons a rest =>
      have hmemps : ph ∈ a :: rest := processAll_mem_of_mem s.options hp hmem hph
      have hndps : ((a :: rest).map ProcessedHand.handedness).Nodup := by
        rw [processAll_map_handedness s.options hp]
        exact hnd
      rw [update_eq_cons s f a rest hp] at hupd
      simp only [Option.some.injEq, Prod.mk.injEq] at hupd
      obtain ⟨hs1, hout⟩ := hupd
      obtain ⟨hpa, hpst⟩ := modePhase_handStates_pinch s (a :: rest) ph.handedness
      obtain ⟨hcl, hns⟩ := tapHand_click s.options f.timestamp
        (modePhase s (a :: rest)).1.cursor
        ((modePhase s (a :: rest)).1.handStates ph.handedness) ph t0
        (hpa.trans hactive) hpi hpm (hpst.trans hstart) hdur
      constructor
      · have hmm := tapLoop_cmds_mem s.options f.timestamp
          (modePhase s (a :: rest)).1.cursor (a :: rest)
          (modePhase s (a :: rest)).1.handStates [] ph hmemps hndps
        have hin : ViewportCommand.POINTER_CLICK (modePhase s (a :: rest)).1.cursor.x
            (modePhase s (a :: rest)).1.cursor.y
            ∈ (tapLoop s.options f.timestamp (modePhase s (a :: rest)).1.cursor
              ((modePhase s (a :: rest)).1.handStates, []) (a :: rest)).2 := by
          apply hmm
          rw [hcl]
          exact List.mem_singleton_self _
        have hcur : s1.cursor = (modePhase s (a :: rest)).1.cursor := by rw [← hs1]
        rw [← hout, hcur]
        exact List.mem_append.mpr (Or.inr hin)
      · have hst := tapLoop_states_mem s.options f.timestamp
          (modePhase s (a :: rest)).1.cursor (a :: rest)
          (modePhase s (a :: rest)).1.handStates [] ph hmemps hndps
        have hhs : s1.handStates = (tapLoop s.options f.timestamp
            (modePhase s (a :: rest)).1.cursor
            ((modePhase s (a :: rest)).1.handStates, []) (a :: rest)).1 := by
          rw [← hs1]
        rw [hhs, hst]
        exact hns

theorem averageLandmarks_middlePinchHand :
    averageLandmarks middlePinchHand.landmarks = ⟨19 / 420, 0⟩ := by
  have hl : middlePinchHand.landmarks =
      [⟨0, 0⟩, ⟨0, 0⟩, ⟨0, 0⟩, ⟨0, 0⟩, ⟨1 / 2, 0⟩, ⟨0, 0⟩, ⟨0, 0⟩, ⟨0, 0⟩, ⟨0, 0⟩, ⟨0, 0⟩,
        ⟨0, 0⟩, ⟨0, 0⟩, ⟨9 / 20, 0⟩, ⟨0, 0⟩, ⟨0, 0⟩, ⟨0, 0⟩, ⟨0, 0⟩, ⟨0, 0⟩, ⟨0, 0⟩,
        ⟨0, 0⟩, ⟨0, 0⟩] := rfl
  rw [hl]
  simp only [averageLandmarks, List.foldl_cons, List.foldl_nil, List.length_cons,
    List.length_nil]
  norm_num [Point.mk.injEq]

theorem processHand_middlePinchHand :
    processHand DEFAULTS middlePinchHand = some phMiddlePinch :=
  processHand_eval DEFAULTS middlePinchHand ⟨1 / 2, 0⟩ ⟨0, 0⟩ ⟨9 / 20, 0⟩ ⟨19 / 420, 0⟩
    ⟨0, 0⟩ false true rfl rfl rfl rfl rfl averageLandmarks_middlePinchHand
    (by norm_num [clamp01]) (by norm_num [clamp01])
    (by rw [show |(1 / 2 : ℝ) - 0| = 1 / 2 by
        rw [abs_of_nonneg (by norm_num : (0 : ℝ) ≤ 1 / 2 - 0)]; norm_num]
        exact decide_eq_false (by norm_num [DEFAULTS]))
    (by rw [show |(1 / 2 : ℝ) - 9 / 20| = 1 / 20 by
        rw [abs_of_nonneg (by norm_num : (0 : ℝ) ≤ 1 / 2 - 9 / 20)]; norm_num]
        exact decide_eq_true (by norm_num [DEFAULTS]))

theorem processAll_twoRightFrame :
    processAll DEFAULTS [middlePinchHand, openHand]
      = some [phMiddlePinch, phOpen] := by
  rw [processAll, processHand_middlePinchHand, processAll, processHand_openHand,
    processAll]

/-- C8 counterexample: the frame `twoRightFrame` carries two hands sharing
the `Right` handedness key.  The open second hand satisfies all of the
claim's falling-edge conditions against the stored right-hand state —
pinch active since time 0, now released, quick, no middle pinch — yet the
update emits NO command at all: the first (middle-pinching) hand's
falling edge consumed the stored `pinchStartTime` without clicking, so the
second hand's click never fires. -/
theorem quick_release_counterexample :
    (primedEngine.handStates Handedness.Right).pinchIndexActive = true ∧
      (primedEngine.handStates Handedness.Right).pinchStartTime = some 0 ∧
      phOpen.pinchIndex = false ∧ phOpen.pinchMiddle = false ∧
      twoRightFrame.timestamp - 0 ≤ primedEngine.options.tapMaxDurationMs ∧
      openHand ∈ twoRightFrame.hands ∧
      processHand primedEngine.options openHand = some phOpen ∧
      stepCmds primedEngine twoRightFrame = [] := by
  refine ⟨rfl, rfl, rfl, rfl,
    by norm_num [twoRightFrame, primedEngine, initialEngine, DEFAULTS],
    by simp [twoRightFrame], processHand_openHand, ?_⟩
  have hp : processAll primedEngine.options twoRightFrame.hands
      = some [phMiddlePinch, phOpen] := processAll_twoRightFrame
  rw [stepCmds, update_eq_cons primedEngine twoRightFrame phMiddlePinch [phOpen] hp]
  show (if decide ((0 : ℝ) - 0 ≤ (220 : ℝ)) && !true then
      [ViewportCommand.POINTER_CLICK (0 : ℝ) (0 : ℝ)] else []) ++
      ([] : List ViewportCommand) = []
  rw [show decide ((0 : ℝ) - 0 ≤ (220 : ℝ)) = true from decide_eq_true (by norm_num)]
  rfl

/-- Concrete instance of `quick_release_emits_click`: the primed engine
releasing the quick pinch on `openFrame`. -/
theorem quick_release_emits_click_witness :
    update primedEngine openFrame
        = some (stateAfterOpen, [ViewportCommand.POINTER_CLICK 0 0]) ∧
      openHand ∈ openFrame.hands ∧
      processHand primedEngine.options openHand = some phOpen ∧
      (openFrame.hands.map TrackedHand.handedness).Nodup ∧
      (primedEngine.handStates phOpen.handedness).pinchIndexActive = true ∧
      (primedEngine.handStates phOpen.handedness).pinchStartTime = some 0 ∧
      phOpen.pinchIndex = false ∧ phOpen.pinchMiddle = false ∧
      openFrame.timestamp - 0 ≤ primedEngine.options.tapMaxDurationMs ∧
      (ViewportCommand.POINTER_CLICK stateAfterOpen.cursor.x stateAfterOpen.cursor.y
          ∈ [ViewportCommand.POINTER_CLICK 0 0] ∧
        (stateAfterOpen.handStates phOpen.handedness).pinchStartTime = none) :=
  ⟨update_primedEngine, by simp [openFrame], processHand_openHand,
    by simp [openFrame, openHand], rfl, rfl, rfl, rfl,
    by norm_num [openFrame, primedEngine, initialEngine, DEFAULTS],
    quick_release_emits_click primedEngine openFrame openHand phOpen 0 stateAfterOpen
      [ViewportCommand.POINTER_CLICK 0 0] update_primedEngine (by simp [openFrame])
      processHand_openHand (by simp [openFrame, openHand]) rfl rfl rfl rfl
      (by norm_num [openFrame, primedEngine, initialEngine, DEFAULTS])⟩

/-- Concrete instance of `identical_frame_emits_no_motion`: the open-hand
frame repeated from the initial engine. -/
theorem identical_frame_emits_no_motion_witness :
    (0 : ℝ) < DEFAULTS.moveDeadzone ∧ (0 : ℝ) < DEFAULTS.zoomDeadzone ∧
      (openFrame.hands.map TrackedHand.handedness).Nodup ∧
      update (initialEngine DEFAULTS) openFrame = some (stateAfterOpen, []) ∧
      update stateAfterOpen openFrame = some (stateAfterOpen, []) ∧
      (∀ c ∈ ([] : List ViewportCommand), c.isPointerClick = true) :=
  ⟨by norm_num [DEFAULTS], by norm_num [DEFAULTS], by simp [openFrame, openHand],
    update_openFrame, update_openFrame_again,
    identical_frame_emits_no_motion (initialEngine DEFAULTS) openFrame
      (by norm_num [DEFAULTS, initialEngine]) (by norm_num [DEFAULTS, initialEngine])
      (by simp [openFrame, openHand]) stateAfterOpen [] update_openFrame
      stateAfterOpen [] update_openFrame_again⟩

/-- Concrete instance of `update_commands_shape` at a frame with no
hands. -/
theorem update_commands_shape_witness :
    ([] : List ViewportCommand) =
        ([] : List ViewportCommand).filter (fun c => !c.isPointerClick) ++
          ([] : List ViewportCommand).filter (fun c => c.isPointerClick) ∧
      (([] : List ViewportCommand).filter (fun c => !c.isPointerClick)).length ≤ 1 ∧
      (([] : List ViewportCommand).filter (fun c => c.isPointerClick)).length ≤
        noHandsFrame.hands.length :=
  update_commands_shape (initialEngine DEFAULTS) noHandsFrame
    { initialEngine DEFAULTS with
        mode := GestureMode.IDLE
        primaryHand := none
        lastZoomDistance := none } [] rfl

end









